import Mathlib

/-!
Shallow embedding of the planhub sync reconciliation engine.

The definitions below are translated from the repository sources:
`planhub/documents.py`, `planhub/cli/sync_plan.py`, `planhub/github.py`,
`planhub/importer.py`.  Front-matter values are modelled by an explicit
YAML scalar type; Python dictionaries become association lists; fallible
parsing returns `Except String`; Python truthiness (empty strings, `None`,
zero) is modelled explicitly where the source relies on it.
-/

namespace Planhub

/-- A YAML front-matter value as produced by `yaml.safe_load` on the flat
documents the tool reads: null, booleans, integers, strings and lists. -/
inductive Yaml where
  | null
  | bool (b : Bool)
  | int (n : Int)
  | str (s : String)
  | list (xs : List Yaml)

/-- Front matter: a Python dict of string keys, modelled as an association
list with distinct keys (first binding wins on lookup). -/
abbrev Metadata := List (String × Yaml)

/-- Dictionary lookup: `d[k]` when the key is present. -/
def mget {α : Type} (m : List (String × α)) (k : String) : Option α :=
  (m.find? (fun p => p.1 == k)).map (fun p => p.2)

/-- Python `metadata.get(key)`: an absent key and an explicit `null` value
both read back as `None`. -/
def pyGet (m : Metadata) (k : String) : Yaml :=
  match mget m k with
  | some v => v
  | none => Yaml.null

/-- `_has_key`: `key in metadata`. -/
def has_key (m : Metadata) (k : String) : Bool :=
  m.any (fun p => p.1 == k)

/-- Python truthiness of an optional string (`None` and `""` are falsy). -/
def strTruthy : Option String → Bool
  | some s => s != ""
  | none => false

/-- Python `a or b` on optional strings (the empty string is falsy). -/
def pyOrStr (a b : Option String) : Option String :=
  match a with
  | some s => if s = "" then b else some s
  | none => b

/-- Python `str.strip()` with no argument: remove leading and trailing
whitespace. -/
def pyStrip (s : String) : String :=
  String.mk (((s.toList.dropWhile Char.isWhitespace).reverse.dropWhile
    Char.isWhitespace).reverse)

/-- Python `str.isdigit` restricted to ASCII digits, as used on
front-matter number strings. -/
def pyIsDigit (s : String) : Bool :=
  (s != "") && s.toList.all Char.isDigit

/-- `int(s)` for a digit string. -/
def parseDigits (s : String) : Nat :=
  s.toList.foldl (fun acc c => acc * 10 + (c.toNat - 48)) 0

/-- The `open`/`closed` issue (and milestone) state enum. -/
inductive IssueState where
  | isOpen
  | isClosed
deriving Repr, DecidableEq

/-- `IssueState.value`. -/
def IssueState.value : IssueState → String
  | .isOpen => "open"
  | .isClosed => "closed"

/-- `IssueState(value)` enum construction, `none` on unknown input. -/
def issueStateOfString (s : String) : Option IssueState :=
  if s = "open" then some .isOpen
  else if s = "closed" then some .isClosed
  else none

/-- The `completed`/`not_planned`/`reopened` state-reason enum. -/
inductive IssueStateReason where
  | completed
  | notPlanned
  | reopened
deriving Repr, DecidableEq

/-- `IssueStateReason.value`. -/
def IssueStateReason.value : IssueStateReason → String
  | .completed => "completed"
  | .notPlanned => "not_planned"
  | .reopened => "reopened"

/-- `IssueStateReason(value)` enum construction, `none` on unknown input. -/
def issueStateReasonOfString (s : String) : Option IssueStateReason :=
  if s = "completed" then some .completed
  else if s = "not_planned" then some .notPlanned
  else if s = "reopened" then some .reopened
  else none

/-- `_require_str`: the value must be a string whose `strip()` is non-empty. -/
def require_str (m : Metadata) (key path : String) : Except String String :=
  match pyGet m key with
  | .str s =>
    if pyStrip s = "" then .error s!"{path}: Missing or invalid \x27{key}\x27."
    else .ok s
  | _ => .error s!"{path}: Missing or invalid \x27{key}\x27."

/-- `_optional_str`: absent/null reads as `none`; non-strings are errors. -/
def optional_str (m : Metadata) (key path : String) : Except String (Option String) :=
  match pyGet m key with
  | .null => .ok none
  | .str s => .ok (some s)
  | _ => .error s!"{path}: Expected \x27{key}\x27 to be a string."

/-- `_optional_int`.  Note that Python's `isinstance(value, int)` is true for
booleans, so a YAML boolean passes the integer check and is read as 1/0;
digit strings are also accepted. -/
def optional_int (m : Metadata) (key path : String) : Except String (Option Int) :=
  match pyGet m key with
  | .null => .ok none
  | .bool b => .ok (some (if b then 1 else 0))
  | .int n => .ok (some n)
  | .str s =>
    if pyIsDigit s then .ok (some (Int.ofNat (parseDigits s)))
    else .error s!"{path}: Expected \x27{key}\x27 to be an integer."
  | _ => .error s!"{path}: Expected \x27{key}\x27 to be an integer."

/-- All elements are strings (the `isinstance(item, str)` check of
`_optional_str_list`). -/
def allStrings : List Yaml → Option (List String)
  | [] => some []
  | .str s :: rest => (allStrings rest).map (fun ss => s :: ss)
  | _ => none

/-- `_optional_str_list`: absent/null reads as the empty tuple; a list of
strings is accepted; anything else is an error. -/
def optional_str_list (m : Metadata) (key path : String) :
    Except String (List String) :=
  match pyGet m key with
  | .null => .ok []
  | .list xs =>
    match allStrings xs with
    | some ss => .ok ss
    | none => .error s!"{path}: Expected \x27{key}\x27 to be a list of strings."
  | _ => .error s!"{path}: Expected \x27{key}\x27 to be a list of strings."

/-- `_optional_milestone`, returning `(milestone, milestone_number,
milestone_set)`.  A missing key is `(none, none, false)`; explicit null is
`(none, none, true)`; an integer (or boolean, via `isinstance(value, int)`)
is a numeric reference; a string is a title reference. -/
def optional_milestone (m : Metadata) (path : String) :
    Except String (Option String × Option Int × Bool) :=
  if has_key m "milestone" = false then .ok (none, none, false)
  else
    match pyGet m "milestone" with
    | .null => .ok (none, none, true)
    | .bool b => .ok (none, some (if b then 1 else 0), true)
    | .int n => .ok (none, some n, true)
    | .str s => .ok (some s, none, true)
    | .list _ => .error s!"{path}: Expected \x27milestone\x27 to be a string, int, or null."

/-- `_parse_issue_state`. -/
def parse_issue_state (value : Yaml) (path : String) :
    Except String (Option IssueState) :=
  match value with
  | .null => .ok none
  | .str s =>
    match issueStateOfString s with
    | some st => .ok (some st)
    | none => .error s!"{path}: Unknown state \x27{s}\x27."
  | _ => .error s!"{path}: Expected \x27state\x27 to be a string."

/-- `_parse_state_reason`. -/
def parse_state_reason (value : Yaml) (path : String) :
    Except String (Option IssueStateReason) :=
  match value with
  | .null => .ok none
  | .str s =>
    match issueStateReasonOfString s with
    | some sr => .ok (some sr)
    | none => .error s!"{path}: Unknown state_reason \x27{s}\x27."
  | _ => .error s!"{path}: Expected \x27state_reason\x27 to be a string."

/-- `IssueDocument` (documents.py). -/
structure IssueDocument where
  path : String
  title : String
  body : String
  issue_id : Option String
  number : Option Int
  labels : List String
  labels_set : Bool
  milestone : Option String
  milestone_number : Option Int
  milestone_set : Bool
  assignees : List String
  assignees_set : Bool
  issue_type : Option String
  state : Option IssueState
  state_reason : Option IssueStateReason
deriving Repr, DecidableEq

/-- `MilestoneDocument` (documents.py). -/
structure MilestoneDocument where
  path : String
  title : String
  description : Option String
  due_on : Option String
  state : Option IssueState
  milestone_id : Option String
  number : Option Int
  body : String
deriving Repr, DecidableEq

/-- `load_issue_document`, applied to already-split front matter and body
(the file-reading and `---` delimiter handling happens upstream). -/
def load_issue_document (path : String) (metadata : Metadata) (body : String) :
    Except String IssueDocument := do
  let title ← require_str metadata "title" path
  let issue_id ← optional_str metadata "id" path
  let number ← optional_int metadata "number" path
  let labels ← optional_str_list metadata "labels" path
  let labels_set := has_key metadata "labels"
  let ms ← optional_milestone metadata path
  let assignees ← optional_str_list metadata "assignees" path
  let assignees_set := has_key metadata "assignees"
  let issue_type ← optional_str metadata "type" path
  let state ← parse_issue_state (pyGet metadata "state") path
  let state_reason ← parse_state_reason (pyGet metadata "state_reason") path
  return { path := path, title := title, body := body, issue_id := issue_id,
           number := number, labels := labels, labels_set := labels_set,
           milestone := ms.1, milestone_number := ms.2.1, milestone_set := ms.2.2,
           assignees := assignees, assignees_set := assignees_set,
           issue_type := issue_type, state := state, state_reason := state_reason }

/-- `load_milestone_document`.  The description falls back to the body
(`_optional_str(...) or body or None`, with Python string truthiness). -/
def load_milestone_document (path : String) (metadata : Metadata) (body : String) :
    Except String MilestoneDocument := do
  let title ← require_str metadata "title" path
  let milestone_id ← optional_str metadata "id" path
  let number ← optional_int metadata "number" path
  let descOpt ← optional_str metadata "description" path
  let description := pyOrStr descOpt (if body = "" then none else some body)
  let due_on ← optional_str metadata "due_on" path
  let state ← parse_issue_state (pyGet metadata "state") path
  return { path := path, title := title, description := description,
           due_on := due_on, state := state, milestone_id := milestone_id,
           number := number, body := body }

/-- One optional front-matter entry (`if v is not None: metadata[key] = v`). -/
def optField (key : String) (v : Option Yaml) : Metadata :=
  match v with
  | some y => [(key, y)]
  | none => []

/-- One flag-guarded front-matter entry (`if flag: metadata[key] = v`). -/
def flagField (key : String) (present : Bool) (v : Yaml) : Metadata :=
  if present then [(key, v)] else []

/-- The YAML value written for the milestone key by
`issue_document_to_metadata`: number first, else title, else null. -/
def milestoneYaml (doc : IssueDocument) : Yaml :=
  match doc.milestone_number with
  | some n => Yaml.int n
  | none =>
    match doc.milestone with
    | some s => Yaml.str s
    | none => Yaml.null

/-- `issue_document_to_metadata`: the front-matter dict re-rendered from a
parsed document, in the source's insertion order. -/
def issue_document_to_metadata (doc : IssueDocument) : Metadata :=
  [("title", Yaml.str doc.title)]
  ++ optField "id" (doc.issue_id.map Yaml.str)
  ++ optField "number" (doc.number.map Yaml.int)
  ++ flagField "labels" doc.labels_set (Yaml.list (doc.labels.map Yaml.str))
  ++ flagField "milestone" doc.milestone_set (milestoneYaml doc)
  ++ flagField "assignees" doc.assignees_set (Yaml.list (doc.assignees.map Yaml.str))
  ++ optField "type" (doc.issue_type.map Yaml.str)
  ++ optField "state" (doc.state.map (fun st => Yaml.str st.value))
  ++ optField "state_reason" (doc.state_reason.map (fun sr => Yaml.str sr.value))

/-- A source file already split into front matter and body (the plan builder
receives files, parses them and classifies the documents). -/
structure SourceFile where
  path : String
  metadata : Metadata
  body : String

/-- A discovered milestone directory: `milestoneContent = none` models a
directory whose fixed-name `milestone.md` does not exist. -/
structure MilestoneEntry where
  directory : String
  milestoneFilePath : String
  milestoneContent : Option (Metadata × String)
  issueFiles : List SourceFile

/-- `SyncPlan` (sync_plan.py): create/update buckets plus the two lookup
tables.  Dicts are modelled as association lists with most-recent-first
insertion. -/
structure SyncPlan where
  milestones_to_create : List (String × MilestoneDocument)
  milestones_to_update : List (String × MilestoneDocument)
  issues_to_create : List (String × IssueDocument × Option String)
  issues_to_update : List (String × IssueDocument × Option String)
  milestone_numbers : List (String × Int)
  milestone_titles_by_dir : List (String × String)

/-- The freshly constructed `SyncPlan()`. -/
def emptyPlan : SyncPlan :=
  { milestones_to_create := [], milestones_to_update := [],
    issues_to_create := [], issues_to_update := [],
    milestone_numbers := [], milestone_titles_by_dir := [] }

/-- `d[k] = v` on a dict: overriding insertion (lookup sees the new binding). -/
def dictInsert {α : Type} (d : List (String × α)) (k : String) (v : α) :
    List (String × α) :=
  (k, v) :: d

/-- The running state of `build_sync_plan`: the plan, the error list and the
two parse counters. -/
structure BuildState where
  plan : SyncPlan
  errors : List String
  parsed_milestones : Nat
  parsed_issues : Nat

/-- `_validate_issue_state` condition: `state_reason` set while `state` is
not closed (enum members are truthy in Python). -/
def validate_issue_state (doc : IssueDocument) : Bool :=
  doc.state_reason.isSome && !(doc.state == some IssueState.isClosed)

/-- The loop body shared by `_collect_issues_for_entry` and
`_collect_root_issues`: parse one issue file, validate it, and classify it
into the create or update bucket tagged with the given directory milestone
title (`none` for root issues). -/
def collect_issue_step (milestoneTitle : Option String) (st : BuildState)
    (f : SourceFile) : BuildState :=
  match load_issue_document f.path f.metadata f.body with
  | .error e => { st with errors := st.errors ++ [e] }
  | .ok doc =>
    if validate_issue_state doc then
      { st with errors :=
          st.errors ++ [s!"{f.path}: state_reason requires state=\x27closed\x27."] }
    else if doc.number = none then
      { st with
          plan := { st.plan with issues_to_create :=
            st.plan.issues_to_create ++ [(f.path, doc, milestoneTitle)] },
          parsed_issues := st.parsed_issues + 1 }
    else
      { st with
          plan := { st.plan with issues_to_update :=
            st.plan.issues_to_update ++ [(f.path, doc, milestoneTitle)] },
          parsed_issues := st.parsed_issues + 1 }

/-- One iteration of the milestone loop of `build_sync_plan`: report a
missing or unparsable milestone file and skip the whole entry; otherwise
record the directory title, classify the milestone (recording its number in
the title table when present), bump the milestone counter, and collect the
entry's issue files.  The per-issue directory-title lookup
`plan.milestone_titles_by_dir.get(entry.directory)` is constant during the
inner loop, so it is evaluated once here. -/
def process_entry (st : BuildState) (entry : MilestoneEntry) : BuildState :=
  match entry.milestoneContent with
  | none =>
    { st with errors := st.errors ++ [s!"{entry.milestoneFilePath}: missing milestone.md"] }
  | some (md, body) =>
    match load_milestone_document entry.milestoneFilePath md body with
    | .error e => { st with errors := st.errors ++ [e] }
    | .ok mdoc =>
      let titles1 := dictInsert st.plan.milestone_titles_by_dir entry.directory mdoc.title
      let st1 := { st with plan := { st.plan with milestone_titles_by_dir := titles1 } }
      let st2 :=
        match mdoc.number with
        | some n =>
          let numbers1 := dictInsert st1.plan.milestone_numbers mdoc.title n
          let updates1 := st1.plan.milestones_to_update ++ [(entry.milestoneFilePath, mdoc)]
          { st1 with plan := { st1.plan with milestone_numbers := numbers1, milestones_to_update := updates1 } }
        | none =>
          let creates1 := st1.plan.milestones_to_create ++ [(entry.milestoneFilePath, mdoc)]
          { st1 with plan := { st1.plan with milestones_to_create := creates1 } }
      let st3 := { st2 with parsed_milestones := st2.parsed_milestones + 1 }
      entry.issueFiles.foldl
        (collect_issue_step (mget st3.plan.milestone_titles_by_dir entry.directory)) st3

/-- `build_sync_plan`: walk the discovered milestone entries, then the root
issues, returning `(plan, parsed_milestones, parsed_issues, errors)`. -/
def build_sync_plan (entries : List MilestoneEntry) (rootIssues : List SourceFile) :
    SyncPlan × Nat × Nat × List String :=
  let st0 : BuildState :=
    { plan := emptyPlan, errors := [], parsed_milestones := 0, parsed_issues := 0 }
  let st1 := entries.foldl process_entry st0
  let st2 := rootIssues.foldl (collect_issue_step none) st1
  (st2.plan, st2.parsed_milestones, st2.parsed_issues, st2.errors)

/-- `_resolve_milestone_number`, returning `((milestone_number,
clear_milestone), errors_appended)`: an explicit numeric reference wins; an
explicit-null reference signals clear intent; otherwise the issue title or
the directory title is looked up in the title table, recording an error when
the lookup fails. -/
def resolve_milestone_number (plan : SyncPlan) (issuePath : String)
    (doc : IssueDocument) (milestoneTitle : Option String) :
    (Option Int × Bool) × List String :=
  if doc.milestone_number.isSome then ((doc.milestone_number, false), [])
  else if doc.milestone_set ∧ doc.milestone = none then ((none, true), [])
  else
    match pyOrStr doc.milestone milestoneTitle with
    | some t =>
      if t = "" then ((none, false), [])
      else
        match mget plan.milestone_numbers t with
        | some n => ((some n, false), [])
        | none => ((none, false), [s!"{issuePath}: milestone \x27{t}\x27 has no number."])
    | none => ((none, false), [])

/-- The keyword arguments of a `client.create_issue` call. -/
structure CreateIssueCall where
  title : String
  body : Option String
  labels : Option (List String)
  assignees : Option (List String)
  milestone : Option Int
  issue_type : Option String
deriving Repr, DecidableEq

/-- `create_single_issue` up to the remote create call: either errors are
recorded (no call), the issue is silently skipped because its milestone
reference stayed unresolved (no call), or the create call is issued with
these arguments.  The post-call number write-back and close transition are
outside the decision logic modelled here. -/
def create_single_issue (plan : SyncPlan) (issuePath : String)
    (doc : IssueDocument) (milestoneTitle : Option String) :
    Option CreateIssueCall × List String :=
  let r := resolve_milestone_number plan issuePath doc milestoneTitle
  if r.2 ≠ [] then (none, r.2)
  else
    let clear := r.1.2
    let mn := if clear then none else r.1.1
    if strTruthy (pyOrStr doc.milestone milestoneTitle) ∧ mn = none then (none, [])
    else
      (some { title := doc.title,
              body := if doc.body = "" then none else some doc.body,
              labels := if doc.labels_set then some doc.labels else none,
              assignees := if doc.assignees_set then some doc.assignees else none,
              milestone := mn,
              issue_type := doc.issue_type }, [])

/-- The JSON payload built by `GitHubClient.update_issue`: every field is
added only when explicitly supplied, except that the milestone key is also
written (as null) when `clear_milestone` is set, and `state_reason` is only
transmitted alongside a closed state. -/
def update_issue_payload (title body : Option String)
    (labels assignees : Option (List String)) (milestone : Option Int)
    (clear_milestone : Bool) (issue_type : Option String)
    (state : Option IssueState) (state_reason : Option IssueStateReason) :
    Metadata :=
  optField "title" (title.map Yaml.str)
  ++ optField "body" (body.map Yaml.str)
  ++ optField "labels" (labels.map (fun ls => Yaml.list (ls.map Yaml.str)))
  ++ optField "assignees" (assignees.map (fun xs => Yaml.list (xs.map Yaml.str)))
  ++ (if milestone.isSome || clear_milestone then
        [("milestone", (milestone.map Yaml.int).getD Yaml.null)] else [])
  ++ optField "type" (issue_type.map Yaml.str)
  ++ optField "state" (state.map (fun st => Yaml.str st.value))
  ++ (match state_reason, state with
      | some sr, some IssueState.isClosed => [("state_reason", Yaml.str sr.value)]
      | _, _ => [])

/-- A `client.update_issue` call: target issue number and JSON payload. -/
structure UpdateIssueCall where
  number : Int
  payload : Metadata

/-- `update_single_issue` up to the remote update call: a missing number or
a resolution error is recorded (no call); an unresolved title reference is
silently skipped (no call); otherwise the update call is issued and its
payload computed by `update_issue_payload`. -/
def update_single_issue (plan : SyncPlan) (issuePath : String)
    (doc : IssueDocument) (milestoneTitle : Option String) :
    Option UpdateIssueCall × List String :=
  match doc.number with
  | none => (none, [s!"{issuePath}: missing issue number."])
  | some num =>
    let r := resolve_milestone_number plan issuePath doc milestoneTitle
    if r.2 ≠ [] then (none, r.2)
    else if strTruthy (pyOrStr doc.milestone milestoneTitle) ∧ r.1.1 = none then
      (none, [])
    else
      (some { number := num,
              payload := update_issue_payload (some doc.title)
                (if doc.body = "" then none else some doc.body)
                (if doc.labels_set then some doc.labels else none)
                (if doc.assignees_set then some doc.assignees else none)
                r.1.1 r.1.2 doc.issue_type doc.state doc.state_reason }, [])

/-- The message wrapped around a worker failure by `_run_parallel`. -/
def parallel_error_message (e : String) : String :=
  s!"Parallel execution error: {e}"

/-- `_run_parallel`: submit every item to the pool, then drain all futures,
catching each failure and appending it to the shared error list.  Worker
completion order is abstracted to submission order; the pair returned is
(items attempted, final error list). -/
def run_parallel {α : Type} (items : List α) (f : α → Except String Unit)
    (errors : List String) : List α × List String :=
  if items.isEmpty then (items, errors)
  else
    let futures := items.map (fun item => (item, f item))
    let finalErrors := futures.foldl
      (fun acc fut =>
        match fut.2 with
        | .ok _ => acc
        | .error e => acc ++ [parallel_error_message e]) errors
    (futures.map (fun fut => fut.1), finalErrors)

/-- A remote HTTP response as observed by the client: status plus the three
headers the rate-limit logic reads.  `requests.Response.ok` is
`status_code < 400`. -/
structure HttpResponse where
  status : Nat
  retryAfter : Option Nat
  rateLimitRemaining : Option String
  rateLimitReset : Option Int
deriving Repr, DecidableEq

/-- `response.ok` (requests): true for every status below 400. -/
def HttpResponse.isOk (r : HttpResponse) : Bool :=
  r.status < 400

/-- `GitHubAPIError`: the typed error surfaced to callers (the raw response
body is not modelled). -/
structure GitHubAPIError where
  status_code : Nat
  message : String
deriving Repr, DecidableEq

/-- The `status_forcelist` of the urllib3 `Retry` installed by
`_create_session`. -/
def retryStatusForcelist (s : Nat) : Bool :=
  s == 500 || s == 502 || s == 503 || s == 504

/-- One `session.request` against a scripted server: the transport-level
urllib3 `Retry` (total=3, `allowed_methods=["GET"]`,
`raise_on_status=False`) transparently retries GET responses whose status is
in the forcelist, returning the final response and the remaining script. -/
def session_fetch (isGet : Bool) : Nat → List HttpResponse →
    Option HttpResponse × List HttpResponse
  | _, [] => (none, [])
  | 0, r :: rest => (some r, rest)
  | fuel + 1, r :: rest =>
    if isGet && retryStatusForcelist r.status then session_fetch isGet fuel rest
    else (some r, rest)

/-- `_request_once`: one session request (with its embedded transport
retries) for the given HTTP method. -/
def request_once (method : String) (script : List HttpResponse) :
    Option HttpResponse × List HttpResponse :=
  session_fetch (method == "GET") 3 script

/-- `_handle_rate_limit`: returns the seconds to wait before the single
client-level retry, `none` when no rate limit applies, or raises the 403
rate-limit error. -/
def handle_rate_limit (now : Int) (r : HttpResponse) :
    Except GitHubAPIError (Option Nat) :=
  if r.status = 403 then
    if r.rateLimitRemaining = some "0" then
      match r.rateLimitReset with
      | some resetTime =>
        let waitSeconds : Int := resetTime - now + 1
        if 0 < waitSeconds ∧ waitSeconds ≤ 60 then .ok (some waitSeconds.toNat)
        else .error { status_code := 403, message := "Rate limit exceeded. Try again later." }
      | none =>
        .error { status_code := 403, message := "Rate limit exceeded. Try again later." }
    else .ok none
  else if r.status = 429 then
    .ok (some (min (r.retryAfter.getD 60) 60))
  else .ok none

deriving instance DecidableEq for Except

/-- The observable result of `_request_with_headers`: the outcome (`none`
when the response script is exhausted, otherwise the surfaced error or the
final successful status), the rate-limit sleep performed, and the number of
transport requests sent. -/
structure RequestTrace where
  outcome : Option (Except GitHubAPIError Nat)
  waited : Option Nat
  sent : Nat
deriving Repr, DecidableEq

/-- The tail of `_request_with_headers`: a non-ok response raises the typed
error carrying its status code (body/message extraction is not modelled, so
the message is the `"unknown error"` default); an ok response is returned. -/
def finishResponse (r : HttpResponse) : Except GitHubAPIError Nat :=
  if r.isOk then .ok r.status
  else .error { status_code := r.status, message := "unknown error" }

/-- `_request_with_headers`: send the request, consult the rate-limit
handler, optionally sleep and retry exactly once, then surface the final
response. -/
def request_with_headers (method : String) (now : Int)
    (script : List HttpResponse) : RequestTrace :=
  match request_once method script with
  | (none, _) => { outcome := none, waited := none, sent := script.length }
  | (some r1, rest1) =>
    let sent1 := script.length - rest1.length
    match handle_rate_limit now r1 with
    | .error e => { outcome := some (.error e), waited := none, sent := sent1 }
    | .ok none => { outcome := some (finishResponse r1), waited := none, sent := sent1 }
    | .ok (some w) =>
      match request_once method rest1 with
      | (none, _) => { outcome := none, waited := some w, sent := script.length }
      | (some r2, rest2) =>
        { outcome := some (finishResponse r2), waited := some w,
          sent := sent1 + (rest1.length - rest2.length) }

/-- A remote milestone as returned by the list-issues API. -/
structure RemoteMilestone where
  title : Option String
  number : Option Int
deriving Repr, DecidableEq

/-- A remote issue as returned by the list-issues API (the fields the import
loop reads). -/
structure RemoteIssue where
  pull_request : Bool
  number : Option Int
  title : Option String
  body : Option String
  state : Option String
  state_reason : Option String
  milestone : Option RemoteMilestone
  created_at : Option String
deriving Repr, DecidableEq

/-- Python truthiness of an optional integer (`None` and `0` are falsy). -/
def intTruthy : Option Int → Bool
  | some n => n != 0
  | none => false

/-- `_slugify`: lowercase, keep alphanumerics, map space/dash/underscore to
dashes, drop the rest, strip and collapse dashes, defaulting to
`"milestone"`. -/
def slugify (value : String) : String :=
  let mapped := value.toList.map Char.toLower |>.filterMap (fun c =>
    if c.isAlphanum then some c
    else if c = ' ' ∨ c = '-' ∨ c = '_' then some '-' else none)
  let stripped := (mapped.dropWhile (· = '-')).reverse.dropWhile (· = '-') |>.reverse
  let collapsed := stripped.foldr
    (fun c acc =>
      match acc with
      | [] => [c]
      | a :: rest => if c = '-' ∧ a = '-' then a :: rest else c :: a :: rest) []
  let normalized := String.mk collapsed
  if normalized = "" then "milestone" else normalized

/-- `_format_date`: `YYYYMMDD` extracted from an ISO-8601 timestamp,
`"00000000"` when absent or unparsable.  `datetime.fromisoformat` is
shallowly modelled by checking the `YYYY-MM-DD` digit layout of the prefix. -/
def format_date (value : Option String) : String :=
  match value with
  | none => "00000000"
  | some s =>
    if s = "" then "00000000"
    else
      let cs := s.toList
      if cs.length ≥ 10 ∧ (cs.take 4).all Char.isDigit ∧ cs.get? 4 = some '-' ∧
         ((cs.drop 5).take 2).all Char.isDigit ∧ cs.get? 7 = some '-' ∧
         ((cs.drop 8).take 2).all Char.isDigit then
        String.mk ((cs.take 4) ++ ((cs.drop 5).take 2) ++ ((cs.drop 8).take 2))
      else "00000000"

/-- The final component of a path (`Path.name`). -/
def baseName (p : String) : String :=
  String.mk ((p.toList.reverse.takeWhile (· ≠ '/')).reverse)

/-- The numeric-suffix disambiguation loop of `_issue_path_for_import`,
with fuel (one more than the number of existing files suffices, since each
iteration proposes a distinct candidate). -/
def firstFreeCandidate (dir base : String) (fs : List String) :
    Nat → Nat → String
  | 0, index => s!"{dir}/{base}-{index}.md"
  | fuel + 1, index =>
    let candidate := s!"{dir}/{base}-{index}.md"
    if candidate ∈ fs then firstFreeCandidate dir base fs fuel (index + 1)
    else candidate

/-- `_issue_path_for_import`: `YYYYMMDD-slug(title).md` in the target
directory, then a `-number` variant, then `-2`, `-3`, ... on collision.
`fs` is the set of existing file paths. -/
def issue_path_for_import (dir : String) (fs : List String)
    (issue : RemoteIssue) : String :=
  let createdAtStr := format_date issue.created_at
  let slug := slugify (pyStrip (issue.title.getD ""))
  let title := if slug = "" then "issue" else slug
  let base := s!"{createdAtStr}-{title}"
  let path := s!"{dir}/{base}.md"
  if path ∉ fs then path
  else
    match issue.number with
    | some n =>
      if n ≠ 0 then
        let withNumber := s!"{dir}/{base}-{n}.md"
        if withNumber ∉ fs then withNumber
        else firstFreeCandidate dir base fs (fs.length + 1) 2
      else firstFreeCandidate dir base fs (fs.length + 1) 2
    | none => firstFreeCandidate dir base fs (fs.length + 1) 2

/-- `_maybe_move_issue`: move the matched local file into the milestone's
issues directory unless it is already there or the target exists. -/
def maybe_move_issue (existingPath : String) (milestoneDir : Option String)
    (fs : List String) : Bool :=
  match milestoneDir with
  | none => false
  | some targetDir =>
    let name := baseName existingPath
    let targetPath := s!"{targetDir}/{name}"
    if existingPath = targetPath ∨ targetPath ∈ fs then false else true

/-- `_content_key`. -/
def content_key (title : String) (body : Option String) : String × String :=
  (pyStrip title, pyStrip (body.getD ""))

/-- What the import loop decides for one remote issue. -/
inductive ImportOutcome where
  | pullRequest
  | noNumber
  | matchedByNumber (path : String) (moved : Bool)
  | matchedByContent (path : String) (moved : Bool)
  | pathCollision (path : String)
  | createdFile (path : String)
deriving Repr, DecidableEq

/-- The loop body of `import_existing_issues` for one remote issue, given
the pre-collected number and content indexes, the set of existing file
paths, and the two layout directories.  `matchedBy... false`,
`pathCollision` and `noNumber` are counted as skipped; `createdFile` writes
a new local file. -/
def import_issue_step (existingIssues : List (Int × String))
    (existingByContent : List ((String × String) × String))
    (fs : List String) (issuesDir milestonesDir : String)
    (issue : RemoteIssue) : ImportOutcome :=
  if issue.pull_request then .pullRequest
  else if !(intTruthy issue.number) then .noNumber
  else
    let number := issue.number.getD 0
    let milestoneDir : Option String :=
      match issue.milestone with
      | some m =>
        match m.title with
        | some t => if t = "" then none else some s!"{milestonesDir}/{slugify t}/issues"
        | none => none
      | none => none
    match (existingIssues.find? (fun p => p.1 == number)).map (fun p => p.2) with
    | some existingPath =>
      if maybe_move_issue existingPath milestoneDir fs then
        .matchedByNumber existingPath true
      else .matchedByNumber existingPath false
    | none =>
      let ck := content_key (issue.title.getD "") issue.body
      let contentHit :=
        if strTruthy issue.title ∧ issue.body.isSome then
          (existingByContent.find? (fun p => p.1 == ck)).map (fun p => p.2)
        else none
      match contentHit with
      | some existingPath =>
        if maybe_move_issue existingPath milestoneDir fs then
          .matchedByContent existingPath true
        else .matchedByContent existingPath false
      | none =>
        let targetDir := milestoneDir.getD issuesDir
        let issuePath := issue_path_for_import targetDir fs issue
        if issuePath ∈ fs then .pathCollision issuePath
        else .createdFile issuePath

/-! Concrete inputs used by the witness theorems. -/

/-- The initial `build_sync_plan` state. -/
def st0 : BuildState :=
  { plan := emptyPlan, errors := [], parsed_milestones := 0, parsed_issues := 0 }

/-- A milestone directory whose `milestone.md` is missing. -/
def entryMissingFile : MilestoneEntry :=
  { directory := ".plan/milestones/stage-1",
    milestoneFilePath := ".plan/milestones/stage-1/milestone.md",
    milestoneContent := none,
    issueFiles := [{ path := ".plan/milestones/stage-1/issues/a.md",
                     metadata := [("title", Yaml.str "A")], body := "" }] }

/-- A numbered issue file inside the stage-1 milestone directory. -/
def fileA21 : SourceFile :=
  { path := ".plan/milestones/stage-1/issues/a.md",
    metadata := [("title", Yaml.str "A"), ("number", Yaml.int 21)],
    body := "Body" }

/-- A milestone directory with a numbered milestone document and one
numbered issue. -/
def entryNumbered : MilestoneEntry :=
  { directory := ".plan/milestones/stage-1",
    milestoneFilePath := ".plan/milestones/stage-1/milestone.md",
    milestoneContent := some ([("title", Yaml.str "Stage 1"), ("number", Yaml.int 7)], ""),
    issueFiles := [fileA21] }

/-- An issue file with `state_reason` set while `state` is omitted. -/
def fileStateReasonNoState : SourceFile :=
  { path := ".plan/issues/bad.md",
    metadata := [("title", Yaml.str "T"), ("state_reason", Yaml.str "completed")],
    body := "" }

/-- The document parsed from `fileStateReasonNoState`. -/
def docStateReasonNoState : IssueDocument :=
  { path := ".plan/issues/bad.md", title := "T", body := "", issue_id := none,
    number := none, labels := [], labels_set := false, milestone := none,
    milestone_number := none, milestone_set := false, assignees := [],
    assignees_set := false, issue_type := none, state := none,
    state_reason := some IssueStateReason.completed }

/-- A numbered update-list issue that explicitly clears labels and milestone
(`labels: []`, `milestone: null` both present). -/
def docExplicitEmpty : IssueDocument :=
  { path := ".plan/issues/u.md", title := "U", body := "", issue_id := none,
    number := some 9, labels := [], labels_set := true, milestone := none,
    milestone_number := none, milestone_set := true, assignees := [],
    assignees_set := false, issue_type := none, state := none,
    state_reason := none }

/-- A numbered update-list issue that omits the labels key and pins its
milestone by number. -/
def docOmittedLabels : IssueDocument :=
  { path := ".plan/issues/v.md", title := "V", body := "", issue_id := none,
    number := some 10, labels := [], labels_set := false, milestone := none,
    milestone_number := some 3, milestone_set := true, assignees := [],
    assignees_set := false, issue_type := none, state := none,
    state_reason := none }

/-- An issue whose milestone title is not in the resolved-number table. -/
def docDanglingTitle : IssueDocument :=
  { path := ".plan/issues/w.md", title := "W", body := "", issue_id := none,
    number := some 11, labels := [], labels_set := false, milestone := some "Ghost",
    milestone_number := none, milestone_set := true, assignees := [],
    assignees_set := false, issue_type := none, state := none,
    state_reason := none }

/-- The milestone document parsed from `entryNumbered`'s milestone file. -/
def mdocStage1 : MilestoneDocument :=
  { path := ".plan/milestones/stage-1/milestone.md", title := "Stage 1",
    description := none, due_on := none, state := none, milestone_id := none,
    number := some 7, body := "" }

/-- The issue document parsed from `entryNumbered`'s single issue file. -/
def docA21 : IssueDocument :=
  { path := ".plan/milestones/stage-1/issues/a.md", title := "A", body := "Body",
    issue_id := none, number := some 21, labels := [], labels_set := false,
    milestone := none, milestone_number := none, milestone_set := false,
    assignees := [], assignees_set := false, issue_type := none, state := none,
    state_reason := none }

/-- The closed remote issue of `test_import_skips_closed_issues`. -/
def closedRemoteIssue : RemoteIssue :=
  { pull_request := false, number := some 5, title := some "Closed issue",
    body := some "This is closed", state := some "closed",
    state_reason := some "completed", milestone := none,
    created_at := some "2026-01-27T10:00:00Z" }

/-! Lookup lemmas for the association-list dictionaries. -/

theorem mget_append {α : Type} (a b : List (String × α)) (k : String) :
    mget (a ++ b) k = Option.or (mget a k) (mget b k) := by
  unfold mget
  rw [List.find?_append]
  cases a.find? (fun p => p.1 == k) <;> simp [Option.or]

theorem mget_nil {α : Type} (k : String) : mget ([] : List (String × α)) k = none := rfl

theorem mget_cons {α : Type} (k k' : String) (v : α) (rest : List (String × α)) :
    mget ((k, v) :: rest) k' = if k = k' then some v else mget rest k' := by
  unfold mget
  rcases eq_or_ne k k' with h | h
  · simp [List.find?_cons, h]
  · simp [List.find?_cons, beq_eq_false_iff_ne.mpr h, h]

theorem mget_optField (k k' : String) (vo : Option Yaml) :
    mget (optField k vo) k' = if k = k' then vo else none := by
  cases vo <;> simp [optField, mget_cons, mget_nil]

theorem mget_flagField (k k' : String) (present : Bool) (v : Yaml) :
    mget (flagField k present v) k' =
      if k = k' then (if present then some v else none) else none := by
  cases present <;> simp [flagField, mget_cons, mget_nil]

theorem has_key_append (a b : Metadata) (k : String) :
    has_key (a ++ b) k = (has_key a k || has_key b k) := by
  unfold has_key
  exact List.any_append

theorem has_key_cons (k k' : String) (v : Yaml) (rest : Metadata) :
    has_key ((k, v) :: rest) k' = ((k == k') || has_key rest k') := by
  simp [has_key]

theorem has_key_optField (k k' : String) (vo : Option Yaml) :
    has_key (optField k vo) k' = if k = k' then vo.isSome else false := by
  rcases eq_or_ne k k' with h | h
  · subst h; cases vo <;> simp [optField, has_key]
  · cases vo <;> simp [optField, has_key, h, beq_eq_false_iff_ne.mpr h]

theorem has_key_flagField (k k' : String) (present : Bool) (v : Yaml) :
    has_key (flagField k present v) k' = if k = k' then present else false := by
  rcases eq_or_ne k k' with h | h
  · subst h; cases present <;> simp [flagField, has_key]
  · cases present <;> simp [flagField, has_key, h, beq_eq_false_iff_ne.mpr h]

theorem mget_eq_none_of_has_key_false {m : Metadata} {k : String}
    (h : has_key m k = false) : mget m k = none := by
  unfold has_key at h
  unfold mget
  simp only [List.any_eq_false] at h
  rw [List.find?_eq_none.mpr h]
  rfl

theorem has_key_of_mget_some {α : Type} {m : List (String × α)} {k : String} {v : α}
    (h : mget m k = some v) : (m.any (fun p => p.1 == k)) = true := by
  unfold mget at h
  cases hf : m.find? (fun p => p.1 == k) with
  | none => rw [hf] at h; cases h
  | some p =>
    have h1 := List.mem_of_find?_eq_some hf
    have h2 := List.find?_some hf
    exact List.any_eq_true.mpr ⟨p, h1, h2⟩

/-- Claim C7: when a discovered milestone directory has no milestone file,
`build_sync_plan` appends a missing-milestone.md error, leaves every plan
bucket and both counters unchanged, and processes none of the entry's issue
files. -/
theorem C7_missing_milestone_file_skips_entry (st : BuildState)
    (entry : MilestoneEntry) (h : entry.milestoneContent = none) :
    (process_entry st entry).plan = st.plan ∧
    (process_entry st entry).parsed_milestones = st.parsed_milestones ∧
    (process_entry st entry).parsed_issues = st.parsed_issues ∧
    (process_entry st entry).errors =
      st.errors ++ [s!"{entry.milestoneFilePath}: missing milestone.md"] := by
  simp [process_entry, h]

/-- Witness for C7 at a concrete entry whose milestone file is missing. -/
theorem C7_missing_milestone_file_skips_entry_witness :
    (process_entry st0 entryMissingFile).plan = st0.plan ∧
    (process_entry st0 entryMissingFile).parsed_milestones = st0.parsed_milestones ∧
    (process_entry st0 entryMissingFile).parsed_issues = st0.parsed_issues ∧
    (process_entry st0 entryMissingFile).errors =
      st0.errors ++ [".plan/milestones/stage-1/milestone.md: missing milestone.md"] :=
  C7_missing_milestone_file_skips_entry st0 entryMissingFile rfl

/-- Claim C6: an issue document with `state_reason` set while `state` is
omitted or open is rejected by the plan builder with a
`state_reason requires state='closed'` error for its path and is excluded
from both the create and the update list. -/
theorem C6_state_reason_requires_closed (mtitle : Option String)
    (st : BuildState) (f : SourceFile) (doc : IssueDocument)
    (hload : load_issue_document f.path f.metadata f.body = .ok doc)
    (hsr : doc.state_reason.isSome = true)
    (hst : doc.state = none ∨ doc.state = some IssueState.isOpen) :
    (collect_issue_step mtitle st f).plan.issues_to_create = st.plan.issues_to_create ∧
    (collect_issue_step mtitle st f).plan.issues_to_update = st.plan.issues_to_update ∧
    (collect_issue_step mtitle st f).parsed_issues = st.parsed_issues ∧
    (collect_issue_step mtitle st f).errors =
      st.errors ++ [s!"{f.path}: state_reason requires state=\x27closed\x27."] := by
  have hv : validate_issue_state doc = true := by
    rcases hst with h | h <;> simp [validate_issue_state, h, hsr]
  simp [collect_issue_step, hload, hv]

/-- Witness for C6: a concrete document with `state_reason: completed` and
no `state` key is rejected with the validation error. -/
theorem C6_state_reason_requires_closed_witness :
    (collect_issue_step none st0 fileStateReasonNoState).plan.issues_to_create
      = st0.plan.issues_to_create ∧
    (collect_issue_step none st0 fileStateReasonNoState).plan.issues_to_update
      = st0.plan.issues_to_update ∧
    (collect_issue_step none st0 fileStateReasonNoState).parsed_issues
      = st0.parsed_issues ∧
    (collect_issue_step none st0 fileStateReasonNoState).errors =
      st0.errors ++ [".plan/issues/bad.md: state_reason requires state=\x27closed\x27."] :=
  C6_state_reason_requires_closed none st0 fileStateReasonNoState
    docStateReasonNoState rfl rfl (Or.inl rfl)

/-- The error-collecting fold of `_run_parallel` appends exactly one wrapped
message per failing item, in order. -/
theorem run_parallel_fold_eq {α : Type} (l : List (α × Except String Unit))
    (acc : List String) :
    l.foldl
      (fun acc fut =>
        match fut.2 with
        | .ok _ => acc
        | .error e => acc ++ [parallel_error_message e]) acc
    = acc ++ l.filterMap
        (fun fut =>
          match fut.2 with
          | .ok _ => none
          | .error e => some (parallel_error_message e)) := by
  induction l generalizing acc with
  | nil => simp
  | cons hd tl ih =>
    cases hr : hd.2 with
    | ok u => simp [List.foldl_cons, hr, ih]
    | error e => simp [List.foldl_cons, hr, ih]

/-- Claim C8: `_run_parallel` attempts every item regardless of other
items' failures, keeps every pre-existing error, and appends exactly one
wrapped error per failing item, so no failure is lost. -/
theorem C8_run_parallel_attempts_all_collects_all {α : Type}
    (items : List α) (f : α → Except String Unit) (errors : List String) :
    (run_parallel items f errors).1 = items ∧
    (run_parallel items f errors).2 =
      errors ++ items.filterMap
        (fun it =>
          match f it with
          | .ok _ => none
          | .error e => some (parallel_error_message e)) ∧
    (∀ it ∈ items, ∀ e, f it = .error e →
      parallel_error_message e ∈ (run_parallel items f errors).2) := by
  have hmain : (run_parallel items f errors).1 = items ∧
      (run_parallel items f errors).2 =
        errors ++ items.filterMap
          (fun it =>
            match f it with
            | .ok _ => none
            | .error e => some (parallel_error_message e)) := by
    unfold run_parallel
    rcases items with _ | ⟨a, tl⟩
    · simp
    · cases hf : f a <;>
        simp [run_parallel_fold_eq, List.filterMap_map, Function.comp_def, hf,
          List.filterMap_cons]
  refine ⟨hmain.1, hmain.2, ?_⟩
  intro it hit e he
  rw [hmain.2]
  refine List.mem_append.mpr (Or.inr ?_)
  refine List.mem_filterMap.mpr ⟨it, hit, ?_⟩
  rw [he]

/-- Witness for C8: three items of which the middle one fails; all are
attempted and exactly its failure is collected after the old error. -/
theorem C8_run_parallel_attempts_all_collects_all_witness :
    (run_parallel [0, 1, 2]
        (fun n => if n = 1 then Except.error "boom" else Except.ok ())
        ["old"]).1 = [0, 1, 2] ∧
    (run_parallel [0, 1, 2]
        (fun n => if n = 1 then Except.error "boom" else Except.ok ())
        ["old"]).2 =
      ["old"] ++ [0, 1, 2].filterMap
        (fun it =>
          match (if it = 1 then Except.error "boom" else Except.ok ()) with
          | .ok _ => none
          | .error e => some (parallel_error_message e)) ∧
    (∀ it ∈ [0, 1, 2], ∀ e,
      (if it = 1 then Except.error "boom" else Except.ok ()) = Except.error e →
      parallel_error_message e ∈
        (run_parallel [0, 1, 2]
          (fun n => if n = 1 then Except.error "boom" else Except.ok ())
          ["old"]).2) :=
  C8_run_parallel_attempts_all_collects_all [0, 1, 2]
    (fun n => if n = 1 then Except.error "boom" else Except.ok ()) ["old"]

/-- Claim C10: a YAML boolean in an integer-typed field passes the
`isinstance(value, int)` check (booleans are ints in Python), so parsing
records no error naming the field and silently reads `true` as 1 and
`false` as 0, both for `number`-like fields and for the numeric milestone
reference. -/
theorem C10_boolean_accepted_as_integer :
    (∀ (m : Metadata) (key path : String) (b : Bool),
       pyGet m key = Yaml.bool b →
       optional_int m key path = .ok (some (if b then 1 else 0))) ∧
    (∀ (m : Metadata) (path : String) (b : Bool),
       mget m "milestone" = some (Yaml.bool b) →
       optional_milestone m path = .ok (none, some (if b then 1 else 0), true)) := by
  constructor
  · intro m key path b h
    simp [optional_int, h]
  · intro m path b h
    have hk : has_key m "milestone" = true := has_key_of_mget_some h
    have hg : pyGet m "milestone" = Yaml.bool b := by simp [pyGet, h]
    simp [optional_milestone, hk, hg]

/-- Witness for C10: `number: true` parses as 1 and `milestone: false`
parses as the numeric reference 0, with no error. -/
theorem C10_boolean_accepted_as_integer_witness :
    optional_int [("title", Yaml.str "T"), ("number", Yaml.bool true)] "number" "p.md"
      = .ok (some 1) ∧
    optional_milestone [("milestone", Yaml.bool false)] "p.md"
      = .ok (none, some 0, true) :=
  ⟨C10_boolean_accepted_as_integer.1
      [("title", Yaml.str "T"), ("number", Yaml.bool true)] "number" "p.md" true rfl,
   C10_boolean_accepted_as_integer.2 [("milestone", Yaml.bool false)] "p.md" false rfl⟩

/-- The `state_reason` entry of an update payload never carries another
key. -/
theorem has_key_state_reason_chunk (sr : Option IssueStateReason)
    (st : Option IssueState) (k : String) (h : k ≠ "state_reason") :
    has_key
      (match sr, st with
       | some r, some IssueState.isClosed => [("state_reason", Yaml.str r.value)]
       | _, _ => ([] : Metadata)) k = false := by
  rcases sr with _ | r
  · simp [has_key]
  · rcases st with _ | s
    · simp [has_key]
    · cases s <;> simp [has_key, beq_eq_false_iff_ne.mpr (Ne.symm h)]

/-- Claim C2: milestone reference resolution priority.  (1) An explicit
numeric reference always wins.  (2) An explicit-null reference yields the
clear-milestone signal with no error.  (3) Otherwise the issue's own title,
or the inherited directory title, is looked up in the title table.  (4) A
present title missing from the table records an error for the issue, and
both `create_single_issue` and `update_single_issue` then record exactly
that error and issue no remote call. -/
theorem C2_milestone_reference_resolution :
    (∀ (plan : SyncPlan) (path : String) (doc : IssueDocument)
       (mtitle : Option String) (n : Int), doc.milestone_number = some n →
       resolve_milestone_number plan path doc mtitle = ((some n, false), [])) ∧
    (∀ (plan : SyncPlan) (path : String) (doc : IssueDocument)
       (mtitle : Option String), doc.milestone_number = none →
       doc.milestone_set = true → doc.milestone = none →
       resolve_milestone_number plan path doc mtitle = ((none, true), [])) ∧
    (∀ (plan : SyncPlan) (path : String) (doc : IssueDocument)
       (mtitle : Option String) (t : String) (n : Int),
       doc.milestone_number = none →
       ¬(doc.milestone_set = true ∧ doc.milestone = none) →
       pyOrStr doc.milestone mtitle = some t → t ≠ "" →
       mget plan.milestone_numbers t = some n →
       resolve_milestone_number plan path doc mtitle = ((some n, false), [])) ∧
    (∀ (plan : SyncPlan) (path : String) (doc : IssueDocument)
       (mtitle : Option String) (t : String),
       doc.milestone_number = none →
       ¬(doc.milestone_set = true ∧ doc.milestone = none) →
       pyOrStr doc.milestone mtitle = some t → t ≠ "" →
       mget plan.milestone_numbers t = none →
       resolve_milestone_number plan path doc mtitle
           = ((none, false), [s!"{path}: milestone \x27{t}\x27 has no number."]) ∧
       create_single_issue plan path doc mtitle
           = (none, [s!"{path}: milestone \x27{t}\x27 has no number."]) ∧
       (∀ k, doc.number = some k →
          update_single_issue plan path doc mtitle
            = (none, [s!"{path}: milestone \x27{t}\x27 has no number."]))) := by
  refine ⟨?_, ?_, ?_, ?_⟩
  · intro plan path doc mtitle n h
    simp [resolve_milestone_number, h]
  · intro plan path doc mtitle hn hset hm
    simp [resolve_milestone_number, hn, hset, hm]
  · intro plan path doc mtitle t n hn hnot ht hne hl
    simp [resolve_milestone_number, hn, hnot, ht, hne, hl]
  · intro plan path doc mtitle t hn hnot ht hne hl
    have hres : resolve_milestone_number plan path doc mtitle
        = ((none, false), [s!"{path}: milestone \x27{t}\x27 has no number."]) := by
      simp [resolve_milestone_number, hn, hnot, ht, hne, hl]
    refine ⟨hres, ?_, ?_⟩
    · simp [create_single_issue, hres]
    · intro k hk
      simp [update_single_issue, hk, hres]

/-- Witness for C2: the four resolution branches at concrete issues: a
numeric reference, an explicit null, a resolvable title, and a dangling
title that blocks both the create and the update call. -/
theorem C2_milestone_reference_resolution_witness :
    resolve_milestone_number emptyPlan ".plan/issues/v.md" docOmittedLabels none
      = ((some 3, false), []) ∧
    resolve_milestone_number emptyPlan ".plan/issues/u.md" docExplicitEmpty none
      = ((none, true), []) ∧
    resolve_milestone_number
      { emptyPlan with milestone_numbers := [("Ghost", 4)] }
      ".plan/issues/w.md" docDanglingTitle none = ((some 4, false), []) ∧
    (resolve_milestone_number emptyPlan ".plan/issues/w.md" docDanglingTitle none
        = ((none, false), [".plan/issues/w.md: milestone \x27Ghost\x27 has no number."]) ∧
     create_single_issue emptyPlan ".plan/issues/w.md" docDanglingTitle none
        = (none, [".plan/issues/w.md: milestone \x27Ghost\x27 has no number."]) ∧
     update_single_issue emptyPlan ".plan/issues/w.md" docDanglingTitle none
        = (none, [".plan/issues/w.md: milestone \x27Ghost\x27 has no number."])) := by
  refine ⟨?_, ?_, ?_, ?_, ?_, ?_⟩
  · exact C2_milestone_reference_resolution.1 emptyPlan ".plan/issues/v.md"
      docOmittedLabels none 3 rfl
  · exact C2_milestone_reference_resolution.2.1 emptyPlan ".plan/issues/u.md"
      docExplicitEmpty none rfl rfl rfl
  · exact C2_milestone_reference_resolution.2.2.1
      { emptyPlan with milestone_numbers := [("Ghost", 4)] }
      ".plan/issues/w.md" docDanglingTitle none "Ghost" 4 rfl (by decide) rfl
      (by decide) rfl
  · exact (C2_milestone_reference_resolution.2.2.2 emptyPlan ".plan/issues/w.md"
      docDanglingTitle none "Ghost" rfl (by decide) rfl (by decide) rfl).1
  · exact (C2_milestone_reference_resolution.2.2.2 emptyPlan ".plan/issues/w.md"
      docDanglingTitle none "Ghost" rfl (by decide) rfl (by decide) rfl).2.1
  · exact (C2_milestone_reference_resolution.2.2.2 emptyPlan ".plan/issues/w.md"
      docDanglingTitle none "Ghost" rfl (by decide) rfl (by decide) rfl).2.2
      11 rfl

/-- Claim C5: explicitly empty/null fields are transmitted on update while
absent fields are omitted.  (1) A root issue with `labels: []` and
`milestone: null` present produces an update call whose payload carries
`labels: []` and `milestone: null`.  (2) A document without the labels key
produces a payload with no labels field.  (3) Whenever the milestone is
being cleared, the payload carries an explicit null milestone instead of
omitting the key. -/
theorem C5_explicit_empty_transmitted_absent_omitted :
    (∀ (plan : SyncPlan) (path : String) (doc : IssueDocument) (k : Int),
       doc.number = some k → doc.labels_set = true → doc.labels = [] →
       doc.milestone_set = true → doc.milestone = none →
       doc.milestone_number = none →
       ∃ call, update_single_issue plan path doc none = (some call, []) ∧
         call.number = k ∧
         mget call.payload "labels" = some (Yaml.list []) ∧
         mget call.payload "milestone" = some Yaml.null) ∧
    (∀ (plan : SyncPlan) (path : String) (doc : IssueDocument) (k j : Int),
       doc.number = some k → doc.labels_set = false →
       doc.milestone_number = some j →
       ∃ call, update_single_issue plan path doc none = (some call, []) ∧
         has_key call.payload "labels" = false) ∧
    (∀ (title body : Option String) (labels assignees : Option (List String))
       (issue_type : Option String) (state : Option IssueState)
       (state_reason : Option IssueStateReason),
       mget (update_issue_payload title body labels assignees none true
             issue_type state state_reason) "milestone" = some Yaml.null) := by
  refine ⟨?_, ?_, ?_⟩
  · intro plan path doc k hnum hlset hlab hmset hm hmn
    have hres : resolve_milestone_number plan path doc none = ((none, true), []) := by
      simp [resolve_milestone_number, hmn, hmset, hm]
    have hcall : update_single_issue plan path doc none =
        (some { number := k,
                payload := update_issue_payload (some doc.title)
                  (if doc.body = "" then none else some doc.body)
                  (some doc.labels)
                  (if doc.assignees_set then some doc.assignees else none)
                  none true doc.issue_type doc.state doc.state_reason }, []) := by
      simp [update_single_issue, hnum, hres, hlset, hm, pyOrStr, strTruthy]
    refine ⟨_, hcall, rfl, ?_, ?_⟩
    · rw [hlab]
      simp [update_issue_payload, mget_append, mget_optField, mget_cons, mget_nil]
    · simp [update_issue_payload, mget_append, mget_optField, mget_cons, mget_nil]
  · intro plan path doc k j hnum hlset hmn
    have hres : resolve_milestone_number plan path doc none = ((some j, false), []) := by
      simp [resolve_milestone_number, hmn]
    have hcall : update_single_issue plan path doc none =
        (some { number := k,
                payload := update_issue_payload (some doc.title)
                  (if doc.body = "" then none else some doc.body)
                  none
                  (if doc.assignees_set then some doc.assignees else none)
                  (some j) false doc.issue_type doc.state doc.state_reason }, []) := by
      simp [update_single_issue, hnum, hres, hlset]
    refine ⟨_, hcall, ?_⟩
    simp [update_issue_payload, has_key_append, has_key_optField, has_key_cons,
      has_key_state_reason_chunk]
  · intro title body labels assignees issue_type state state_reason
    simp [update_issue_payload, mget_append, mget_optField, mget_cons, mget_nil]

/-- Witness for C5 at the two concrete documents and a concrete payload. -/
theorem C5_explicit_empty_transmitted_absent_omitted_witness :
    (∃ call, update_single_issue emptyPlan ".plan/issues/u.md" docExplicitEmpty none
        = (some call, []) ∧
      call.number = 9 ∧
      mget call.payload "labels" = some (Yaml.list []) ∧
      mget call.payload "milestone" = some Yaml.null) ∧
    (∃ call, update_single_issue emptyPlan ".plan/issues/v.md" docOmittedLabels none
        = (some call, []) ∧
      has_key call.payload "labels" = false) ∧
    mget (update_issue_payload (some "U") none none none none true none none none)
      "milestone" = some Yaml.null :=
  ⟨C5_explicit_empty_transmitted_absent_omitted.1 emptyPlan ".plan/issues/u.md"
      docExplicitEmpty 9 rfl rfl rfl rfl rfl rfl,
   C5_explicit_empty_transmitted_absent_omitted.2.1 emptyPlan ".plan/issues/v.md"
      docOmittedLabels 10 3 rfl rfl rfl,
   C5_explicit_empty_transmitted_absent_omitted.2.2 (some "U") none none none
      none none none⟩

/-- Collecting one issue file never touches the milestone buckets or the
milestone lookup tables. -/
theorem collect_step_preserves_milestones (mtitle : Option String)
    (st : BuildState) (f : SourceFile) :
    (collect_issue_step mtitle st f).plan.milestones_to_create
      = st.plan.milestones_to_create ∧
    (collect_issue_step mtitle st f).plan.milestones_to_update
      = st.plan.milestones_to_update ∧
    (collect_issue_step mtitle st f).plan.milestone_numbers
      = st.plan.milestone_numbers := by
  unfold collect_issue_step
  split
  · exact ⟨rfl, rfl, rfl⟩
  · split
    · exact ⟨rfl, rfl, rfl⟩
    · split
      · exact ⟨rfl, rfl, rfl⟩
      · exact ⟨rfl, rfl, rfl⟩

/-- Folding the issue collector over a file list never touches the
milestone buckets or the milestone lookup tables. -/
theorem collect_fold_preserves_milestones (mtitle : Option String)
    (fs : List SourceFile) (st : BuildState) :
    ((fs.foldl (collect_issue_step mtitle) st).plan.milestones_to_create
      = st.plan.milestones_to_create) ∧
    ((fs.foldl (collect_issue_step mtitle) st).plan.milestones_to_update
      = st.plan.milestones_to_update) ∧
    ((fs.foldl (collect_issue_step mtitle) st).plan.milestone_numbers
      = st.plan.milestone_numbers) := by
  induction fs generalizing st with
  | nil => exact ⟨rfl, rfl, rfl⟩
  | cons f fs ih =>
    have h1 := collect_step_preserves_milestones mtitle st f
    have h2 := ih (collect_issue_step mtitle st f)
    exact ⟨h2.1.trans h1.1, h2.2.1.trans h1.2.1, h2.2.2.trans h1.2.2⟩

/-- When every successfully parsed issue of the file is numbered, the issue
create bucket does not grow. -/
theorem collect_step_preserves_creates (mtitle : Option String)
    (st : BuildState) (f : SourceFile)
    (h : ∀ doc, load_issue_document f.path f.metadata f.body = .ok doc →
      doc.number.isSome = true) :
    (collect_issue_step mtitle st f).plan.issues_to_create
      = st.plan.issues_to_create := by
  unfold collect_issue_step
  split
  · rfl
  · rename_i doc heq
    split
    · rfl
    · have hnum := h doc heq
      split
      · rename_i hn
        rw [hn] at hnum
        exact absurd hnum (by simp)
      · rfl

/-- Fold version of `collect_step_preserves_creates`. -/
theorem collect_fold_preserves_creates (mtitle : Option String)
    (fs : List SourceFile) (st : BuildState)
    (h : ∀ f ∈ fs, ∀ doc, load_issue_document f.path f.metadata f.body = .ok doc →
      doc.number.isSome = true) :
    ((fs.foldl (collect_issue_step mtitle) st).plan.issues_to_create
      = st.plan.issues_to_create) := by
  induction fs generalizing st with
  | nil => rfl
  | cons f fs ih =>
    have h1 := collect_step_preserves_creates mtitle st f
      (h f (List.mem_cons_self f fs))
    have h2 := ih (collect_issue_step mtitle st f)
      (fun g hg => h g (List.mem_cons_of_mem f hg))
    exact h2.trans h1

/-- When the entry's milestone document and all its parsed issues carry
numbers, processing the entry grows neither create bucket. -/
theorem process_entry_preserves_creates (st : BuildState) (entry : MilestoneEntry)
    (hm : ∀ md body mdoc, entry.milestoneContent = some (md, body) →
      load_milestone_document entry.milestoneFilePath md body = .ok mdoc →
      mdoc.number.isSome = true)
    (hi : ∀ f ∈ entry.issueFiles, ∀ doc,
      load_issue_document f.path f.metadata f.body = .ok doc →
      doc.number.isSome = true) :
    (process_entry st entry).plan.milestones_to_create
      = st.plan.milestones_to_create ∧
    (process_entry st entry).plan.issues_to_create
      = st.plan.issues_to_create := by
  unfold process_entry
  split
  · exact ⟨rfl, rfl⟩
  · rename_i md body heq
    split
    · exact ⟨rfl, rfl⟩
    · rename_i mdoc heq2
      have hnum := hm md body mdoc heq heq2
      obtain ⟨n, hn⟩ := Option.isSome_iff_exists.mp hnum
      rw [hn]
      constructor
      · exact (collect_fold_preserves_milestones _ _ _).1
      · exact collect_fold_preserves_creates _ _ _ hi

/-- Fold version of `process_entry_preserves_creates` over all entries. -/
theorem entries_fold_preserves_creates (entries : List MilestoneEntry)
    (st : BuildState)
    (hm : ∀ e ∈ entries, ∀ md body mdoc, e.milestoneContent = some (md, body) →
      load_milestone_document e.milestoneFilePath md body = .ok mdoc →
      mdoc.number.isSome = true)
    (hi : ∀ e ∈ entries, ∀ f ∈ e.issueFiles, ∀ doc,
      load_issue_document f.path f.metadata f.body = .ok doc →
      doc.number.isSome = true) :
    ((entries.foldl process_entry st).plan.milestones_to_create
      = st.plan.milestones_to_create) ∧
    ((entries.foldl process_entry st).plan.issues_to_create
      = st.plan.issues_to_create) := by
  induction entries generalizing st with
  | nil => exact ⟨rfl, rfl⟩
  | cons e es ih =>
    have h1 := process_entry_preserves_creates st e
      (hm e (List.mem_cons_self e es)) (hi e (List.mem_cons_self e es))
    have h2 := ih (process_entry st e)
      (fun g hg => hm g (List.mem_cons_of_mem e hg))
      (fun g hg => hi g (List.mem_cons_of_mem e hg))
    exact ⟨h2.1.trans h1.1, h2.2.trans h1.2⟩

/-- Claim C3: classification of parsed documents.  (1) A parsed milestone
goes to the create bucket exactly when its number is absent; with a number
it goes to the update bucket and its number is recorded in the title table
in the same step.  (2) A parsed, valid issue is classified by the presence
of its number the same way.  (3) Consequently, when every parsed document
carries a number (as after a first run wrote numbers back), the builder
performs zero creates. -/
theorem C3_number_presence_decides_create_or_update :
    (∀ (st : BuildState) (entry : MilestoneEntry) (md : Metadata)
       (body : String) (mdoc : MilestoneDocument),
       entry.milestoneContent = some (md, body) →
       load_milestone_document entry.milestoneFilePath md body = .ok mdoc →
       ((mdoc.number = none →
          (process_entry st entry).plan.milestones_to_create
            = st.plan.milestones_to_create ++ [(entry.milestoneFilePath, mdoc)] ∧
          (process_entry st entry).plan.milestones_to_update
            = st.plan.milestones_to_update) ∧
        (∀ n : Int, mdoc.number = some n →
          (process_entry st entry).plan.milestones_to_update
            = st.plan.milestones_to_update ++ [(entry.milestoneFilePath, mdoc)] ∧
          (process_entry st entry).plan.milestones_to_create
            = st.plan.milestones_to_create ∧
          mget (process_entry st entry).plan.milestone_numbers mdoc.title
            = some n))) ∧
    (∀ (mtitle : Option String) (st : BuildState) (f : SourceFile)
       (doc : IssueDocument),
       load_issue_document f.path f.metadata f.body = .ok doc →
       validate_issue_state doc = false →
       ((doc.number = none →
          (collect_issue_step mtitle st f).plan.issues_to_create
            = st.plan.issues_to_create ++ [(f.path, doc, mtitle)] ∧
          (collect_issue_step mtitle st f).plan.issues_to_update
            = st.plan.issues_to_update) ∧
        (doc.number ≠ none →
          (collect_issue_step mtitle st f).plan.issues_to_update
            = st.plan.issues_to_update ++ [(f.path, doc, mtitle)] ∧
          (collect_issue_step mtitle st f).plan.issues_to_create
            = st.plan.issues_to_create))) ∧
    (∀ (entries : List MilestoneEntry) (rootIssues : List SourceFile),
       (∀ e ∈ entries, ∀ md body mdoc, e.milestoneContent = some (md, body) →
         load_milestone_document e.milestoneFilePath md body = .ok mdoc →
         mdoc.number.isSome = true) →
       (∀ f doc, (f ∈ rootIssues ∨ ∃ e ∈ entries, f ∈ e.issueFiles) →
         load_issue_document f.path f.metadata f.body = .ok doc →
         doc.number.isSome = true) →
       (build_sync_plan entries rootIssues).1.milestones_to_create = [] ∧
       (build_sync_plan entries rootIssues).1.issues_to_create = []) := by
  refine ⟨?_, ?_, ?_⟩
  · intro st entry md body mdoc hc hl
    constructor
    · intro hn
      unfold process_entry
      simp only [hc, hl, hn]
      exact ⟨(collect_fold_preserves_milestones _ _ _).1,
             (collect_fold_preserves_milestones _ _ _).2.1⟩
    · intro n hn
      unfold process_entry
      simp only [hc, hl, hn]
      refine ⟨(collect_fold_preserves_milestones _ _ _).2.1,
              (collect_fold_preserves_milestones _ _ _).1, ?_⟩
      rw [(collect_fold_preserves_milestones _ _ _).2.2]
      simp [dictInsert, mget_cons]
  · intro mtitle st f doc hload hv
    constructor
    · intro hn
      simp [collect_issue_step, hload, hv, hn]
    · intro hn
      simp [collect_issue_step, hload, hv, hn]
  · intro entries rootIssues hm hi
    unfold build_sync_plan
    have hEnt := entries_fold_preserves_creates entries
      { plan := emptyPlan, errors := [], parsed_milestones := 0, parsed_issues := 0 }
      hm
      (fun e he g hg doc hl => hi g doc (Or.inr ⟨e, he, hg⟩) hl)
    have hfs := collect_fold_preserves_creates none rootIssues
      (entries.foldl process_entry
        { plan := emptyPlan, errors := [], parsed_milestones := 0, parsed_issues := 0 })
      (fun g hg doc hl => hi g doc (Or.inl hg) hl)
    have hfm := collect_fold_preserves_milestones none rootIssues
      (entries.foldl process_entry
        { plan := emptyPlan, errors := [], parsed_milestones := 0, parsed_issues := 0 })
    exact ⟨hfm.1.trans hEnt.1, hfs.trans hEnt.2⟩

/-- Witness for C3: a numbered milestone with one numbered issue is
classified to the update buckets, its number lands in the title table, and
a build over such input performs zero creates. -/
theorem C3_number_presence_decides_create_or_update_witness :
    ((process_entry st0 entryNumbered).plan.milestones_to_update
        = st0.plan.milestones_to_update ++
          [(".plan/milestones/stage-1/milestone.md", mdocStage1)] ∧
      (process_entry st0 entryNumbered).plan.milestones_to_create
        = st0.plan.milestones_to_create ∧
      mget (process_entry st0 entryNumbered).plan.milestone_numbers "Stage 1"
        = some 7) ∧
    ((collect_issue_step (some "Stage 1") st0 (entryNumbered.issueFiles.headD
          fileStateReasonNoState)).plan.issues_to_update
        = st0.plan.issues_to_update ++
          [(".plan/milestones/stage-1/issues/a.md", docA21, some "Stage 1")] ∧
      (collect_issue_step (some "Stage 1") st0 (entryNumbered.issueFiles.headD
          fileStateReasonNoState)).plan.issues_to_create
        = st0.plan.issues_to_create) ∧
    ((build_sync_plan [entryNumbered] []).1.milestones_to_create = [] ∧
     (build_sync_plan [entryNumbered] []).1.issues_to_create = []) := by
  refine ⟨?_, ?_, ?_⟩
  · exact (C3_number_presence_decides_create_or_update.1 st0 entryNumbered
      [("title", Yaml.str "Stage 1"), ("number", Yaml.int 7)] "" mdocStage1
      rfl rfl).2 7 rfl
  · exact C3_number_presence_decides_create_or_update.2.1 (some "Stage 1") st0
      (entryNumbered.issueFiles.headD fileStateReasonNoState) docA21 rfl rfl
      |>.2 (by decide)
  · refine C3_number_presence_decides_create_or_update.2.2 [entryNumbered] [] ?_ ?_
    · intro e he md body mdoc hc hl
      rw [List.mem_singleton] at he
      subst he
      have hc' : (some ([("title", Yaml.str "Stage 1"), ("number", Yaml.int 7)], "")
          : Option (Metadata × String)) = some (md, body) := hc
      injection hc' with hp
      have hmd : md = [("title", Yaml.str "Stage 1"), ("number", Yaml.int 7)] :=
        (congrArg Prod.fst hp).symm
      have hbody : body = "" := (congrArg Prod.snd hp).symm
      subst hmd
      subst hbody
      have hl' : Except.ok mdocStage1 = Except.ok mdoc := hl
      injection hl' with hd
      rw [← hd]
      rfl
    · intro f doc hmem hl
      rcases hmem with hmem | ⟨e, he, hf⟩
      · cases hmem
      · rw [List.mem_singleton] at he
        subst he
        have hf' : f = fileA21 := List.mem_singleton.mp hf
        subst hf'
        have hl' : Except.ok docA21 = Except.ok doc := hl
        injection hl' with hd
        rw [← hd]
        rfl

/-- A session request whose first scripted response is not transport-retried
returns that response. -/
theorem request_once_cons (method : String) (r : HttpResponse)
    (rest : List HttpResponse)
    (h : (method == "GET") = false ∨ retryStatusForcelist r.status = false) :
    request_once method (r :: rest) = (some r, rest) := by
  unfold request_once
  have hcond : (((method == "GET") : Bool) && retryStatusForcelist r.status) = false := by
    rcases h with h | h <;> simp [h]
  show session_fetch (method == "GET") (2 + 1) (r :: rest) = (some r, rest)
  simp [session_fetch, hcond]

/-- A 429 response makes the rate-limit handler request a capped wait. -/
theorem handle_rate_limit_429 (now : Int) (r : HttpResponse)
    (h : r.status = 429) :
    handle_rate_limit now r = .ok (some (min (r.retryAfter.getD 60) 60)) := by
  simp [handle_rate_limit, h]

/-- A 403 primary rate limit inside the retry window yields the computed
wait. -/
theorem handle_rate_limit_403_wait (now : Int) (r : HttpResponse)
    (resetTime : Int) (h : r.status = 403)
    (hrem : r.rateLimitRemaining = some "0")
    (hres : r.rateLimitReset = some resetTime)
    (h1 : 0 < resetTime - now + 1) (h2 : resetTime - now + 1 ≤ 60) :
    handle_rate_limit now r = .ok (some (resetTime - now + 1).toNat) := by
  simp [handle_rate_limit, h, hrem, hres, h1, h2]

/-- A 403 primary rate limit outside the retry window (or with no reset
header) is raised as the typed rate-limit error. -/
theorem handle_rate_limit_403_raise (now : Int) (r : HttpResponse)
    (h : r.status = 403) (hrem : r.rateLimitRemaining = some "0")
    (hres : ∀ resetTime, r.rateLimitReset = some resetTime →
      ¬(0 < resetTime - now + 1 ∧ resetTime - now + 1 ≤ 60)) :
    handle_rate_limit now r
      = .error { status_code := 403, message := "Rate limit exceeded. Try again later." } := by
  unfold handle_rate_limit
  cases hr : r.rateLimitReset with
  | none => simp [h, hrem]
  | some t =>
    have := hres t hr
    simp [h, hrem, this]

/-- Any response that is neither a 429 nor a primary 403 rate limit passes
the rate-limit handler untouched. -/
theorem handle_rate_limit_other (now : Int) (r : HttpResponse)
    (h403 : ¬(r.status = 403 ∧ r.rateLimitRemaining = some "0"))
    (h429 : r.status ≠ 429) :
    handle_rate_limit now r = .ok none := by
  unfold handle_rate_limit
  by_cases h : r.status = 403
  · have hrem : ¬(r.rateLimitRemaining = some "0") := fun hr => h403 ⟨h, hr⟩
    simp [h, hrem]
  · simp [h, h429]

/-- A response with status at least 400 is surfaced as the typed error. -/
theorem finishResponse_error (r : HttpResponse) (h : 400 ≤ r.status) :
    finishResponse r = .error { status_code := r.status, message := "unknown error" } := by
  have : ¬(r.status < 400) := Nat.not_lt.mpr h
  simp [finishResponse, HttpResponse.isOk, this]

/-- Claim C9 counterexample: the claim says every non-2xx response other
than the two rate-limit cases is surfaced immediately as a typed error with
no retry.  But the session installed by `_create_session` transparently
retries GET requests on 500 (here: a GET scripted 500-then-200 succeeds
after a second transport request, surfacing no error), and `response.ok`
is `status < 400`, so a 304 is treated as success, not as a typed error. -/
theorem C9_counterexample_transport_retry_and_3xx :
    request_with_headers "GET" 0
      [{ status := 500, retryAfter := none, rateLimitRemaining := none,
         rateLimitReset := none },
       { status := 200, retryAfter := none, rateLimitRemaining := none,
         rateLimitReset := none }]
      = { outcome := some (.ok 200), waited := none, sent := 2 } ∧
    request_with_headers "GET" 0
      [{ status := 304, retryAfter := none, rateLimitRemaining := none,
         rateLimitReset := none }]
      = { outcome := some (.ok 304), waited := none, sent := 1 } := by
  decide

/-- Claim C9 (amended): on a 429 the client waits min(Retry-After, 60)
(default 60) and retries exactly once; on a 403 with remaining quota "0" it
waits reset−now+1 seconds only when that wait is in (0, 60] and retries
exactly once, otherwise surfaces the 403 rate-limit error with no retry;
every other response with status ≥ 400 is surfaced immediately as a typed
error carrying the status code with no client-level retry — except that the
transport session retries GET requests on 500/502/503/504 up to 3 times and
only the final response is surfaced. -/
theorem C9_rate_limit_retry_and_error_surfacing :
    (∀ (method : String) (now : Int) (r1 r2 : HttpResponse),
       r1.status = 429 → retryStatusForcelist r2.status = false →
       request_with_headers method now [r1, r2]
         = { outcome := some (finishResponse r2),
             waited := some (min (r1.retryAfter.getD 60) 60), sent := 2 }) ∧
    (∀ (method : String) (now : Int) (r1 r2 : HttpResponse) (resetTime : Int),
       r1.status = 403 → r1.rateLimitRemaining = some "0" →
       r1.rateLimitReset = some resetTime →
       0 < resetTime - now + 1 → resetTime - now + 1 ≤ 60 →
       retryStatusForcelist r2.status = false →
       request_with_headers method now [r1, r2]
         = { outcome := some (finishResponse r2),
             waited := some (resetTime - now + 1).toNat, sent := 2 }) ∧
    (∀ (method : String) (now : Int) (r1 : HttpResponse)
       (rest : List HttpResponse),
       r1.status = 403 → r1.rateLimitRemaining = some "0" →
       (∀ resetTime, r1.rateLimitReset = some resetTime →
          ¬(0 < resetTime - now + 1 ∧ resetTime - now + 1 ≤ 60)) →
       request_with_headers method now (r1 :: rest)
         = { outcome := some (.error ⟨403, "Rate limit exceeded. Try again later."⟩),
             waited := none, sent := 1 }) ∧
    (∀ (method : String) (now : Int) (r1 : HttpResponse)
       (rest : List HttpResponse),
       400 ≤ r1.status → r1.status ≠ 429 →
       ¬(r1.status = 403 ∧ r1.rateLimitRemaining = some "0") →
       (method = "GET" → retryStatusForcelist r1.status = false) →
       request_with_headers method now (r1 :: rest)
         = { outcome := some (.error ⟨r1.status, "unknown error"⟩),
             waited := none, sent := 1 }) ∧
    (∀ (now : Int) (r : HttpResponse),
       retryStatusForcelist r.status = true →
       request_with_headers "GET" now [r, r, r, r]
         = { outcome := some (.error ⟨r.status, "unknown error"⟩),
             waited := none, sent := 4 }) := by
  refine ⟨?_, ?_, ?_, ?_, ?_⟩
  · intro method now r1 r2 h1 h2
    have hforce : retryStatusForcelist r1.status = false := by
      simp [retryStatusForcelist, h1]
    have hr1 := request_once_cons method r1 [r2] (Or.inr hforce)
    have hr2 := request_once_cons method r2 [] (Or.inr h2)
    unfold request_with_headers
    simp only [hr1, hr2, handle_rate_limit_429 now r1 h1]
    simp
  · intro method now r1 r2 resetTime h1 hrem hres hw1 hw2 h2
    have hforce : retryStatusForcelist r1.status = false := by
      simp [retryStatusForcelist, h1]
    have hr1 := request_once_cons method r1 [r2] (Or.inr hforce)
    have hr2 := request_once_cons method r2 [] (Or.inr h2)
    unfold request_with_headers
    simp only [hr1, hr2, handle_rate_limit_403_wait now r1 resetTime h1 hrem hres hw1 hw2]
    simp
  · intro method now r1 rest h1 hrem hout
    have hforce : retryStatusForcelist r1.status = false := by
      simp [retryStatusForcelist, h1]
    have hr1 := request_once_cons method r1 rest (Or.inr hforce)
    unfold request_with_headers
    simp only [hr1, handle_rate_limit_403_raise now r1 h1 hrem hout]
    simp
  · intro method now r1 rest h400 h429 h403 hget
    have hr1 : request_once method (r1 :: rest) = (some r1, rest) := by
      rcases hbeq : (method == "GET") with _ | _
      · exact request_once_cons method r1 rest (Or.inl hbeq)
      · exact request_once_cons method r1 rest
          (Or.inr (hget (by simpa using hbeq)))
    unfold request_with_headers
    simp only [hr1, handle_rate_limit_other now r1 h403 h429,
      finishResponse_error r1 h400]
    simp
  · intro now r hr
    have h400 : 400 ≤ r.status := by
      have hr' := hr
      simp only [retryStatusForcelist, Bool.or_eq_true, beq_iff_eq] at hr'
      rcases hr' with ((h | h) | h) | h <;> omega
    have h403 : ¬(r.status = 403 ∧ r.rateLimitRemaining = some "0") := by
      intro hc
      rw [hc.1] at hr
      simp [retryStatusForcelist] at hr
    have h429 : r.status ≠ 429 := by
      intro hc
      rw [hc] at hr
      simp [retryStatusForcelist] at hr
    have hfetch : request_once "GET" [r, r, r, r] = (some r, []) := by
      unfold request_once
      have hcond : ((("GET" == "GET") : Bool) && retryStatusForcelist r.status) = true := by
        simp [hr]
      show session_fetch ("GET" == "GET") (2 + 1) (r :: [r, r, r]) = (some r, [])
      rw [session_fetch]
      rw [if_pos hcond]
      show session_fetch ("GET" == "GET") (1 + 1) (r :: [r, r]) = (some r, [])
      rw [session_fetch]
      rw [if_pos hcond]
      show session_fetch ("GET" == "GET") (0 + 1) (r :: [r]) = (some r, [])
      rw [session_fetch]
      rw [if_pos hcond]
      rfl
    unfold request_with_headers
    simp only [hfetch, handle_rate_limit_other now r h403 h429,
      finishResponse_error r h400]
    simp

/-- Witness for the amended C9 at concrete responses: a 429 with
Retry-After 120 waits the 60-second cap and retries once; a primary 403
with reset 30 seconds ahead waits 31 seconds and retries once; a primary
403 with reset 300 seconds ahead is surfaced with no retry; a plain 404 is
surfaced immediately; a GET 502 is transport-retried three times and then
surfaced. -/
theorem C9_rate_limit_retry_and_error_surfacing_witness :
    request_with_headers "PATCH" 0
      [{ status := 429, retryAfter := some 120, rateLimitRemaining := none,
         rateLimitReset := none },
       { status := 200, retryAfter := none, rateLimitRemaining := none,
         rateLimitReset := none }]
      = { outcome := some (.ok 200), waited := some 60, sent := 2 } ∧
    request_with_headers "PATCH" 0
      [{ status := 403, retryAfter := none, rateLimitRemaining := some "0",
         rateLimitReset := some 30 },
       { status := 200, retryAfter := none, rateLimitRemaining := none,
         rateLimitReset := none }]
      = { outcome := some (.ok 200), waited := some 31, sent := 2 } ∧
    request_with_headers "PATCH" 0
      [{ status := 403, retryAfter := none, rateLimitRemaining := some "0",
         rateLimitReset := some 300 }]
      = { outcome := some (.error ⟨403, "Rate limit exceeded. Try again later."⟩),
          waited := none, sent := 1 } ∧
    request_with_headers "PATCH" 0
      [{ status := 404, retryAfter := none, rateLimitRemaining := none,
         rateLimitReset := none }]
      = { outcome := some (.error ⟨404, "unknown error"⟩),
          waited := none, sent := 1 } ∧
    request_with_headers "GET" 0
      (List.replicate 4
        { status := 502, retryAfter := none, rateLimitRemaining := none,
          rateLimitReset := none })
      = { outcome := some (.error ⟨502, "unknown error"⟩),
          waited := none, sent := 4 } := by
  refine ⟨?_, ?_, ?_, ?_, ?_⟩
  · exact C9_rate_limit_retry_and_error_surfacing.1 "PATCH" 0 _ _ rfl (by decide)
  · exact C9_rate_limit_retry_and_error_surfacing.2.1 "PATCH" 0 _ _ 30 rfl rfl rfl
      (by decide) (by decide) (by decide)
  · exact C9_rate_limit_retry_and_error_surfacing.2.2.1 "PATCH" 0 _ [] rfl rfl
      (by intro t ht; injection ht with ht'; rw [← ht']; decide)
  · exact C9_rate_limit_retry_and_error_surfacing.2.2.2.1 "PATCH" 0 _ []
      (by decide) (by decide) (by decide) (fun h => absurd h (by decide))
  · exact C9_rate_limit_retry_and_error_surfacing.2.2.2.2 0 _ rfl

/-- Claim C1, evaluated at the failing input: for a closed remote issue
(number 5, state "closed", state_reason "completed", no pull request, no
milestone) against an empty local layout — exactly the input of
`test_import_skips_closed_issues` — the import loop reaches the
file-creation branch and creates a new local file; it never consults the
remote state, so the closed issue is not skipped.  The same input with
state "open" is also created: the two runs are indistinguishable to the
importer. -/
theorem C1_importer_creates_file_for_closed_issue :
    import_issue_step [] [] [] ".plan/issues" ".plan/milestones" closedRemoteIssue
      = ImportOutcome.createdFile ".plan/issues/20260127-closed-issue.md" ∧
    import_issue_step [] [] [] ".plan/issues" ".plan/milestones"
      { closedRemoteIssue with state := some "open", state_reason := some "reopened" }
      = ImportOutcome.createdFile ".plan/issues/20260127-closed-issue.md" := by
  decide

theorem none_or_eq {α : Type} (y : Option α) : Option.or none y = y := rfl

theorem some_or_eq {α : Type} (v : α) (y : Option α) :
    Option.or (some v) y = some v := rfl

theorem or_none_eq {α : Type} (x : Option α) : Option.or x none = x := by
  cases x <;> rfl

/-- `title` always lands first in the serialized front matter. -/
theorem toMeta_mget_title (doc : IssueDocument) :
    mget (issue_document_to_metadata doc) "title" = some (Yaml.str doc.title) := by
  simp [issue_document_to_metadata, mget_append, mget_cons, some_or_eq]

theorem toMeta_mget_id (doc : IssueDocument) :
    mget (issue_document_to_metadata doc) "id" = doc.issue_id.map Yaml.str := by
  simp [issue_document_to_metadata, mget_append, mget_optField, mget_flagField,
    mget_cons, mget_nil, none_or_eq, some_or_eq, or_none_eq]

theorem toMeta_mget_number (doc : IssueDocument) :
    mget (issue_document_to_metadata doc) "number" = doc.number.map Yaml.int := by
  simp [issue_document_to_metadata, mget_append, mget_optField, mget_flagField,
    mget_cons, mget_nil, none_or_eq, some_or_eq, or_none_eq]

theorem toMeta_mget_labels (doc : IssueDocument) :
    mget (issue_document_to_metadata doc) "labels" =
      if doc.labels_set then some (Yaml.list (doc.labels.map Yaml.str)) else none := by
  simp [issue_document_to_metadata, mget_append, mget_optField, mget_flagField,
    mget_cons, mget_nil, none_or_eq, some_or_eq, or_none_eq]

theorem toMeta_mget_milestone (doc : IssueDocument) :
    mget (issue_document_to_metadata doc) "milestone" =
      if doc.milestone_set then some (milestoneYaml doc) else none := by
  simp [issue_document_to_metadata, mget_append, mget_optField, mget_flagField,
    mget_cons, mget_nil, none_or_eq, some_or_eq, or_none_eq]

theorem toMeta_mget_assignees (doc : IssueDocument) :
    mget (issue_document_to_metadata doc) "assignees" =
      if doc.assignees_set then some (Yaml.list (doc.assignees.map Yaml.str)) else none := by
  simp [issue_document_to_metadata, mget_append, mget_optField, mget_flagField,
    mget_cons, mget_nil, none_or_eq, some_or_eq, or_none_eq]

theorem toMeta_mget_type (doc : IssueDocument) :
    mget (issue_document_to_metadata doc) "type" = doc.issue_type.map Yaml.str := by
  simp [issue_document_to_metadata, mget_append, mget_optField, mget_flagField,
    mget_cons, mget_nil, none_or_eq, some_or_eq, or_none_eq]

theorem toMeta_mget_state (doc : IssueDocument) :
    mget (issue_document_to_metadata doc) "state" =
      doc.state.map (fun st => Yaml.str st.value) := by
  simp [issue_document_to_metadata, mget_append, mget_optField, mget_flagField,
    mget_cons, mget_nil, none_or_eq, some_or_eq, or_none_eq]

theorem toMeta_mget_state_reason (doc : IssueDocument) :
    mget (issue_document_to_metadata doc) "state_reason" =
      doc.state_reason.map (fun sr => Yaml.str sr.value) := by
  simp [issue_document_to_metadata, mget_append, mget_optField, mget_flagField,
    mget_cons, mget_nil, none_or_eq, some_or_eq, or_none_eq]

theorem toMeta_has_key_labels (doc : IssueDocument) :
    has_key (issue_document_to_metadata doc) "labels" = doc.labels_set := by
  simp [issue_document_to_metadata, has_key_append, has_key_optField,
    has_key_flagField, has_key_cons]

theorem toMeta_has_key_assignees (doc : IssueDocument) :
    has_key (issue_document_to_metadata doc) "assignees" = doc.assignees_set := by
  simp [issue_document_to_metadata, has_key_append, has_key_optField,
    has_key_flagField, has_key_cons]

theorem toMeta_has_key_milestone (doc : IssueDocument) :
    has_key (issue_document_to_metadata doc) "milestone" = doc.milestone_set := by
  simp [issue_document_to_metadata, has_key_append, has_key_optField,
    has_key_flagField, has_key_cons]

/-- Inversion of a successful `load_issue_document`: every helper succeeded
with exactly the document's fields. -/
theorem load_issue_document_ok {path : String} {m : Metadata} {body : String}
    {doc : IssueDocument}
    (h : load_issue_document path m body = .ok doc) :
    require_str m "title" path = .ok doc.title ∧
    optional_str m "id" path = .ok doc.issue_id ∧
    optional_int m "number" path = .ok doc.number ∧
    optional_str_list m "labels" path = .ok doc.labels ∧
    doc.labels_set = has_key m "labels" ∧
    optional_milestone m path = .ok (doc.milestone, doc.milestone_number, doc.milestone_set) ∧
    optional_str_list m "assignees" path = .ok doc.assignees ∧
    doc.assignees_set = has_key m "assignees" ∧
    optional_str m "type" path = .ok doc.issue_type ∧
    parse_issue_state (pyGet m "state") path = .ok doc.state ∧
    parse_state_reason (pyGet m "state_reason") path = .ok doc.state_reason ∧
    doc.path = path ∧ doc.body = body := by
  unfold load_issue_document at h
  rcases h1 : require_str m "title" path with e | title
  · rw [h1] at h; simp [Bind.bind, Except.bind] at h
  rw [h1] at h
  rcases h2 : optional_str m "id" path with e | issue_id
  · rw [h2] at h; simp [Bind.bind, Except.bind] at h
  rw [h2] at h
  rcases h3 : optional_int m "number" path with e | number
  · rw [h3] at h; simp [Bind.bind, Except.bind] at h
  rw [h3] at h
  rcases h4 : optional_str_list m "labels" path with e | labels
  · rw [h4] at h; simp [Bind.bind, Except.bind] at h
  rw [h4] at h
  rcases h5 : optional_milestone m path with e | ms
  · rw [h5] at h; simp [Bind.bind, Except.bind] at h
  rw [h5] at h
  rcases h6 : optional_str_list m "assignees" path with e | assignees
  · rw [h6] at h; simp [Bind.bind, Except.bind] at h
  rw [h6] at h
  rcases h7 : optional_str m "type" path with e | issue_type
  · rw [h7] at h; simp [Bind.bind, Except.bind] at h
  rw [h7] at h
  rcases h8 : parse_issue_state (pyGet m "state") path with e | state
  · rw [h8] at h; simp [Bind.bind, Except.bind] at h
  rw [h8] at h
  rcases h9 : parse_state_reason (pyGet m "state_reason") path with e | state_reason
  · rw [h9] at h; simp [Bind.bind, Except.bind] at h
  rw [h9] at h
  simp only [Bind.bind, Except.bind, pure, Except.pure] at h
  injection h with hrec
  subst hrec
  exact ⟨rfl, rfl, rfl, rfl, rfl, rfl, rfl, rfl, rfl, rfl, rfl, rfl, rfl⟩

/-- Structural invariants of a successfully parsed issue document: the
title survives `strip()`, unset list fields are empty, an unset milestone
key leaves both reference forms empty, and a numeric milestone reference
excludes a title reference. -/
theorem load_issue_document_invariants {path : String} {m : Metadata}
    {body : String} {doc : IssueDocument}
    (h : load_issue_document path m body = .ok doc) :
    pyStrip doc.title ≠ "" ∧
    (doc.labels_set = false → doc.labels = []) ∧
    (doc.assignees_set = false → doc.assignees = []) ∧
    (doc.milestone_set = false → doc.milestone = none ∧ doc.milestone_number = none) ∧
    (∀ n, doc.milestone_number = some n → doc.milestone = none) := by
  obtain ⟨h1, h2, h3, h4, h5, h6, h7, h8, h9, h10, h11, h12, h13⟩ :=
    load_issue_document_ok h
  refine ⟨?_, ?_, ?_, ?_, ?_⟩
  · unfold require_str at h1
    cases hg : pyGet m "title" with
    | str s =>
      rw [hg] at h1
      dsimp only at h1
      split at h1
      · exact Except.noConfusion h1
      · rename_i hne
        injection h1 with ht
        rw [← ht]
        exact hne
    | null => rw [hg] at h1; exact Except.noConfusion h1
    | bool b => rw [hg] at h1; exact Except.noConfusion h1
    | int n => rw [hg] at h1; exact Except.noConfusion h1
    | list xs => rw [hg] at h1; exact Except.noConfusion h1
  · intro hf
    rw [hf] at h5
    have hnone := mget_eq_none_of_has_key_false h5.symm
    unfold optional_str_list at h4
    rw [show pyGet m "labels" = Yaml.null by simp [pyGet, hnone]] at h4
    injection h4 with hl
    exact hl.symm
  · intro hf
    rw [hf] at h8
    have hnone := mget_eq_none_of_has_key_false h8.symm
    unfold optional_str_list at h7
    rw [show pyGet m "assignees" = Yaml.null by simp [pyGet, hnone]] at h7
    injection h7 with hl
    exact hl.symm
  · intro hf
    unfold optional_milestone at h6
    split at h6
    · injection h6 with hp
      rw [Prod.mk.injEq, Prod.mk.injEq] at hp
      exact ⟨hp.1.symm, hp.2.1.symm⟩
    · split at h6 <;>
        first
          | exact Except.noConfusion h6
          | (injection h6 with hp
             rw [Prod.mk.injEq, Prod.mk.injEq] at hp
             rw [← hp.2.2] at hf
             exact Bool.noConfusion hf)
  · intro n hn
    unfold optional_milestone at h6
    split at h6
    · injection h6 with hp
      rw [Prod.mk.injEq, Prod.mk.injEq] at hp
      rw [← hp.2.1] at hn
      exact Option.noConfusion hn
    · split at h6 <;>
        first
          | exact Except.noConfusion h6
          | (injection h6 with hp
             rw [Prod.mk.injEq, Prod.mk.injEq] at hp
             first
               | exact hp.1.symm
               | (rw [← hp.2.1] at hn; exact Option.noConfusion hn))

theorem allStrings_map_str (ls : List String) :
    allStrings (ls.map Yaml.str) = some ls := by
  induction ls with
  | nil => rfl
  | cons s ls ih => simp [allStrings, ih]

theorem issueStateOfString_value (st : IssueState) :
    issueStateOfString st.value = some st := by
  cases st <;> rfl

theorem issueStateReasonOfString_value (sr : IssueStateReason) :
    issueStateReasonOfString sr.value = some sr := by
  cases sr <;> rfl

/-- `load_issue_document` in terms of its helpers: when every helper
succeeds, parsing succeeds with exactly those fields. -/
theorem load_issue_document_eq_ok (path : String) (m : Metadata) (body : String)
    (title : String) (issue_id : Option String) (number : Option Int)
    (labels : List String) (ms : Option String × Option Int × Bool)
    (assignees : List String) (issue_type : Option String)
    (state : Option IssueState) (state_reason : Option IssueStateReason)
    (h1 : require_str m "title" path = .ok title)
    (h2 : optional_str m "id" path = .ok issue_id)
    (h3 : optional_int m "number" path = .ok number)
    (h4 : optional_str_list m "labels" path = .ok labels)
    (h5 : optional_milestone m path = .ok ms)
    (h6 : optional_str_list m "assignees" path = .ok assignees)
    (h7 : optional_str m "type" path = .ok issue_type)
    (h8 : parse_issue_state (pyGet m "state") path = .ok state)
    (h9 : parse_state_reason (pyGet m "state_reason") path = .ok state_reason) :
    load_issue_document path m body = .ok
      { path := path, title := title, body := body, issue_id := issue_id,
        number := number, labels := labels, labels_set := has_key m "labels",
        milestone := ms.1, milestone_number := ms.2.1, milestone_set := ms.2.2,
        assignees := assignees, assignees_set := has_key m "assignees",
        issue_type := issue_type, state := state, state_reason := state_reason } := by
  simp only [load_issue_document, h1, h2, h3, h4, h5, h6, h7, h8, h9]
  rfl

/-- Claim C4: for every issue document that parses successfully,
serializing the parsed document back to front matter and parsing the
result again yields the very same document — in particular title, number,
labels with their presence flag, milestone in all three reference forms,
and state are preserved by the round trip. -/
theorem C4_parse_serialize_parse_round_trip (path : String) (m : Metadata)
    (body : String) (doc : IssueDocument)
    (h : load_issue_document path m body = .ok doc) :
    load_issue_document path (issue_document_to_metadata doc) body = .ok doc := by
  obtain ⟨-, -, -, -, -, -, -, -, -, -, -, hpath, hbody⟩ := load_issue_document_ok h
  obtain ⟨hTitle, hLab, hAsg, hMsUnset, hMsNum⟩ := load_issue_document_invariants h
  have e1 : require_str (issue_document_to_metadata doc) "title" path
      = .ok doc.title := by
    simp [require_str, pyGet, toMeta_mget_title, hTitle]
  have e2 : optional_str (issue_document_to_metadata doc) "id" path
      = .ok doc.issue_id := by
    cases hid : doc.issue_id <;> simp [optional_str, pyGet, toMeta_mget_id, hid]
  have e3 : optional_int (issue_document_to_metadata doc) "number" path
      = .ok doc.number := by
    cases hn : doc.number <;> simp [optional_int, pyGet, toMeta_mget_number, hn]
  have e4 : optional_str_list (issue_document_to_metadata doc) "labels" path
      = .ok doc.labels := by
    cases hls : doc.labels_set
    · have hl := hLab hls
      simp [optional_str_list, pyGet, toMeta_mget_labels, hls, hl]
    · simp [optional_str_list, pyGet, toMeta_mget_labels, hls, allStrings_map_str]
  have e5 : optional_milestone (issue_document_to_metadata doc) path
      = .ok (doc.milestone, doc.milestone_number, doc.milestone_set) := by
    cases hms : doc.milestone_set
    · obtain ⟨hm1, hm2⟩ := hMsUnset hms
      simp [optional_milestone, toMeta_has_key_milestone, hms, hm1, hm2]
    · cases hmn : doc.milestone_number with
      | some n =>
        have hm1 := hMsNum n hmn
        simp [optional_milestone, toMeta_has_key_milestone, hms, pyGet,
          toMeta_mget_milestone, milestoneYaml, hmn, hm1]
      | none =>
        cases hm : doc.milestone with
        | some s =>
          simp [optional_milestone, toMeta_has_key_milestone, hms, pyGet,
            toMeta_mget_milestone, milestoneYaml, hmn, hm]
        | none =>
          simp [optional_milestone, toMeta_has_key_milestone, hms, pyGet,
            toMeta_mget_milestone, milestoneYaml, hmn, hm]
  have e6 : optional_str_list (issue_document_to_metadata doc) "assignees" path
      = .ok doc.assignees := by
    cases has : doc.assignees_set
    · have ha := hAsg has
      simp [optional_str_list, pyGet, toMeta_mget_assignees, has, ha]
    · simp [optional_str_list, pyGet, toMeta_mget_assignees, has, allStrings_map_str]
  have e7 : optional_str (issue_document_to_metadata doc) "type" path
      = .ok doc.issue_type := by
    cases hit : doc.issue_type <;> simp [optional_str, pyGet, toMeta_mget_type, hit]
  have e8 : parse_issue_state (pyGet (issue_document_to_metadata doc) "state") path
      = .ok doc.state := by
    cases hst : doc.state <;>
      simp [parse_issue_state, pyGet, toMeta_mget_state, hst, issueStateOfString_value]
  have e9 : parse_state_reason
      (pyGet (issue_document_to_metadata doc) "state_reason") path
      = .ok doc.state_reason := by
    cases hsr : doc.state_reason <;>
      simp [parse_state_reason, pyGet, toMeta_mget_state_reason, hsr,
        issueStateReasonOfString_value]
  have hmain := load_issue_document_eq_ok path (issue_document_to_metadata doc) body
    doc.title doc.issue_id doc.number doc.labels
    (doc.milestone, doc.milestone_number, doc.milestone_set)
    doc.assignees doc.issue_type doc.state doc.state_reason
    e1 e2 e3 e4 e5 e6 e7 e8 e9
  rw [hmain, toMeta_has_key_labels, toMeta_has_key_assignees, ← hpath, ← hbody]

/-- Witness for C4 at a concrete document exercising the explicit-empty and
explicit-null fields. -/
theorem C4_parse_serialize_parse_round_trip_witness :
    load_issue_document ".plan/issues/u.md"
      (issue_document_to_metadata docExplicitEmpty) "" = .ok docExplicitEmpty :=
  C4_parse_serialize_parse_round_trip ".plan/issues/u.md"
    [("title", Yaml.str "U"), ("number", Yaml.int 9), ("labels", Yaml.list []),
     ("milestone", Yaml.null)]
    "" docExplicitEmpty rfl

end Planhub
